import Mathlib

/-!
# PaymentDashboard (src/ui/pages/index.js)

A shallow embedding of the dashboard component: the values it receives from the
API (parsed JSON), its twelve state variables, the handlers `fetchPayments`,
`fetchLoanSnapshot`, `fetchValidationLogs`, `handleUpload`, `handleKeyPress`,
the helpers `formatCurrency`, `formatDate`, `getPaymentStatusColor`,
`getStatusText`, and the fragments of the rendered page that decide which
labels, classes and lists are shown.  The ledger store and the event
classifier, which the specification describes and the repository does not
contain, are modelled from the specification and marked as such.

Conventions of the embedding

* A JavaScript value is a `JSValue`.  Numbers are exact rationals (the amounts
  are read as exact decimals; `NaN` and the infinities cannot come out of
  `JSON.parse`).  An object is the list of its own properties, a property read
  returning the first binding of the name.
* Built-ins whose result is fixed by the JavaScript engine and not by this
  repository (string conversion, number conversion, `Intl.NumberFormat`,
  `toLocaleDateString`) are fields of a `Runtime` argument.
* A handler is a function from the state at the call to a result (normal
  completion or a thrown error) and the state when the call completes; what the
  network answers is an argument.  A handler is run to completion on its own;
  `fetchLoanSnapshot` is also given as its two parts, before and after its
  `await fetch`, from which calls that overlap are composed.
-/

namespace PaymentDashboard

/-! ## Values -/

/-- JavaScript values that reach the component. -/
inductive JSValue where
  | undefined : JSValue
  | null : JSValue
  | bool (b : Bool) : JSValue
  | num (q : Rat) : JSValue
  | str (s : String) : JSValue
  | arr (items : List JSValue) : JSValue
  | obj (props : List (String × JSValue)) : JSValue

/-- Errors thrown while a handler or a render fragment runs. -/
inductive JSError where
  | typeError (what : String) : JSError
  | rejected (message : String) : JSError

/-- Built-ins of the JavaScript engine used by the component. -/
structure Runtime where
  /-- String conversion, as performed by a template literal. -/
  toStr : JSValue → String
  /-- Number conversion of a value that is not a number; `none` stands for NaN. -/
  toNumber : JSValue → Option Rat
  /-- The method `format` of `Intl.NumberFormat` for en-ZA, currency ZAR. -/
  formatZAR : JSValue → String
  /-- The expression `new Date(v).toLocaleDateString` for en-ZA. -/
  toLocaleDateString : JSValue → Except JSError String
  /-- The `message` of the TypeError thrown when property `k` of `null` or
  `undefined` is read. -/
  typeErrorMessage : String → String

namespace JSValue

/-- Truthiness: `undefined`, `null`, `false`, `0` and the empty string are falsy. -/
def truthy : JSValue → Bool
  | undefined => false
  | null => false
  | bool b => b
  | num q => decide (q ≠ 0)
  | str s => decide (s ≠ "")
  | arr _ => true
  | obj _ => true

/-- The operator `a || b` (both operands are free of effects wherever it is used). -/
def or (a b : JSValue) : JSValue :=
  if a.truthy then a else b

/-- The test `v === lit` against a string literal. -/
def isStr (v : JSValue) (lit : String) : Bool :=
  match v with
  | str s => decide (s = lit)
  | _ => false

/-- The call `Array.isArray(v)`. -/
def isArray : JSValue → Bool
  | arr _ => true
  | _ => false

/-- First binding of a name in a property list. -/
def lookup (k : String) : List (String × JSValue) → JSValue
  | [] => undefined
  | (n, v) :: rest => if n = k then v else lookup k rest

/-- The value of `v.k` when `v` is neither `null` nor `undefined`, for the
names the component reads (none of them is inherited from a prototype apart
from `length`): only objects, arrays and strings have such properties. -/
def read (v : JSValue) (k : String) : JSValue :=
  match v with
  | str s => if k = "length" then num (s.utf16Length : Nat) else undefined
  | arr items => if k = "length" then num (items.length : Nat) else undefined
  | obj props => lookup k props
  | _ => undefined

/-- The property read `v.k`: reading a property of `null` or `undefined` throws. -/
def getProp (v : JSValue) (k : String) : Except JSError JSValue :=
  match v with
  | undefined => .error (.typeError k)
  | null => .error (.typeError k)
  | other => .ok (read other k)

/-- The comparison `v > n` with a number literal on the right. -/
def gt (rt : Runtime) (v : JSValue) (n : Rat) : Bool :=
  match v with
  | num q => decide (n < q)
  | other =>
    match rt.toNumber other with
    | some q => decide (n < q)
    | none => false

/-- The comparison `v >= n` with a number literal on the right. -/
def ge (rt : Runtime) (v : JSValue) (n : Rat) : Bool :=
  match v with
  | num q => decide (n ≤ q)
  | other =>
    match rt.toNumber other with
    | some q => decide (n ≤ q)
    | none => false

end JSValue

open JSValue

/-! ## State and effects -/

/-- The file chosen in the file input. -/
structure FileInfo where
  name : String
  size : Nat

/-- The state variables of `PaymentDashboard`, in the order of their `useState` calls. -/
structure State where
  file : Option FileInfo
  uploading : Bool
  uploadResult : JSValue
  payments : JSValue
  loanId : String
  snapshotDate : String
  loanSnapshot : JSValue
  validationLogs : JSValue
  loading : Bool
  snapshotLoading : Bool
  activeTab : String
  snapshotError : JSValue

/-- The state of a freshly mounted component. -/
def State.initial : State where
  file := none
  uploading := false
  uploadResult := .null
  payments := .arr []
  loanId := ""
  snapshotDate := ""
  loanSnapshot := .null
  validationLogs := .arr []
  loading := false
  snapshotLoading := false
  activeTab := "upload"
  snapshotError := .null

/-- A response of `fetch`: `json` is what `response.json()` settles to. -/
structure Response where
  ok : Bool
  status : Nat
  statusText : String
  json : Except JSError JSValue

/-- How a call of `fetch` settles. -/
inductive FetchResult where
  | rejects (e : JSError) : FetchResult
  | resolves (r : Response) : FetchResult

/-- A computation over the component state that may throw; the state reached
before a throw is kept. -/
def Eff (α : Type) : Type := State → Except JSError α × State

namespace Eff

/-- Normal completion. -/
def ret {α : Type} (a : α) : Eff α := fun s => (.ok a, s)

/-- Sequencing: a throw in the first part skips the second. -/
def andThen {α β : Type} (m : Eff α) (f : α → Eff β) : Eff β := fun s =>
  match m s with
  | (.ok a, s1) => f a s1
  | (.error e, s1) => (.error e, s1)

instance : Monad Eff where
  pure := ret
  bind := andThen

/-- A state setter. -/
def set (f : State → State) : Eff Unit := fun s => (.ok (), f s)

/-- Lift a pure computation that may throw. -/
def lift {α : Type} (r : Except JSError α) : Eff α := fun s => (r, s)

/-- The statement `try body catch (e) handler`. -/
def tryCatch (body : Eff Unit) (handler : JSError → Eff Unit) : Eff Unit := fun s =>
  match body s with
  | (.ok u, s1) => (.ok u, s1)
  | (.error e, s1) => handler e s1

/-- The clause `finally`: it runs after the protected part however that ended,
and a throw of the protected part is raised again after it. -/
def tryFinally (body : Eff Unit) (fin : Eff Unit) : Eff Unit := fun s =>
  match body s with
  | (r, s1) =>
    match fin s1 with
    | (.ok _, s2) => (r, s2)
    | (.error e, s2) => (.error e, s2)

end Eff

/-! ## fetchLoanSnapshot -/

/-- What `await fetch(url)` yields. -/
def awaitFetch (res : FetchResult) : Eff Response :=
  match res with
  | .rejects e => Eff.lift (.error e)
  | .resolves r => Eff.ret r

/-- The object literal stored by the array branch of `fetchLoanSnapshot`. -/
def normalizeSnapshot (rt : Runtime) (snapshotDate : String) (snapshot : JSValue) :
    Except JSError JSValue := do
  let loan_id ← getProp snapshot "loan_id"
  let outstanding_balance ← getProp snapshot "outstanding_balance"
  let total_paid ← getProp snapshot "total_paid"
  let payments_made ← getProp snapshot "payments_made"
  let principal_amount ← getProp snapshot "principal_amount"
  let borrower_id ← getProp snapshot "borrower_id"
  let loan_name ← getProp snapshot "loan_name"
  pure (.obj [
    ("loan_id", loan_id),
    ("snapshot_date", .str snapshotDate),
    ("outstanding_balance", outstanding_balance),
    ("total_paid", total_paid.or (.num 0)),
    ("payments_made", payments_made.or (.num 0)),
    ("principal_amount", principal_amount.or (.num 24000)),
    ("borrower_id", borrower_id.or (.str "N/A")),
    ("loan_name", loan_name.or (.str ("Loan " ++ rt.toStr loan_id)))])

/-- The branch `response.ok` of `fetchLoanSnapshot`, given the parsed body:
a non-empty array (its first element is normalised and stored), any other
truthy value that is not an array (stored as it is), or neither. -/
def snapshotOk (rt : Runtime) (snapshotDate : String) (data : JSValue) : Eff Unit :=
  match data with
  | .arr (snapshot :: _) => do
    let stored ← Eff.lift (normalizeSnapshot rt snapshotDate snapshot)
    Eff.set (fun s => { s with loanSnapshot := stored })
  | other =>
    if other.truthy && !other.isArray then
      Eff.set (fun s => { s with loanSnapshot := other })
    else
      Eff.set (fun s => { s with snapshotError := .str "No snapshot data found for this loan and date" })

/-- The branch of `fetchLoanSnapshot` for a response that is not OK. -/
def snapshotNotOk (r : Response) : Eff Unit := do
  let errorData : JSValue :=
    match r.json with
    | .ok v => v
    | .error _ => .obj []
  let detail ← Eff.lift (getProp errorData "detail")
  let fallback : JSValue :=
    .str ("Failed to fetch snapshot: " ++ toString r.status ++ " " ++ r.statusText)
  Eff.set (fun s => { s with snapshotError := detail.or fallback })

/-- The handler `fetchLoanSnapshot`, from its call to its completion with no
other handler running in between; `res` is how its request settles.  Its two
parts around `await fetch` are `fetchLoanSnapshotStart` and
`fetchLoanSnapshotResume`. -/
def fetchLoanSnapshot (rt : Runtime) (res : FetchResult) : Eff Unit := fun s0 =>
  let loanId := s0.loanId
  let snapshotDate := s0.snapshotDate
  if loanId = "" ∨ snapshotDate = "" then
    Eff.set (fun s => { s with snapshotError := .str "Please enter both loan ID and snapshot date" }) s0
  else
    (do
      Eff.set (fun s => { s with snapshotLoading := true })
      Eff.set (fun s => { s with snapshotError := .null })
      Eff.set (fun s => { s with loanSnapshot := .null })
      Eff.tryFinally
        (Eff.tryCatch
          (do
            let response ← awaitFetch res
            if response.ok then
              let data ← Eff.lift response.json
              snapshotOk rt snapshotDate data
            else
              snapshotNotOk response)
          (fun _ => Eff.set (fun s =>
            { s with snapshotError := .str "Network error: Failed to fetch loan snapshot" })))
        (Eff.set (fun s => { s with snapshotLoading := false }))) s0

/-! ## Helpers of the page -/

/-- The helper `formatCurrency`: falsy amounts are formatted as 0. -/
def formatCurrency (rt : Runtime) (amount : JSValue) : String :=
  rt.formatZAR (amount.or (.num 0))

/-- The helper `formatDate`. -/
def formatDate (rt : Runtime) (dateString : JSValue) : JSValue :=
  if !dateString.truthy then .str "N/A"
  else
    match rt.toLocaleDateString dateString with
    | .ok s => .str s
    | .error _ => dateString

/-- The helper `getPaymentStatusColor`. -/
def getPaymentStatusColor (status : JSValue) : String :=
  if status.isStr "PaymentReceivedEvent" then "text-emerald-700 bg-emerald-50 border-emerald-200"
  else if status.isStr "ShortPaymentEvent" then "text-amber-700 bg-amber-50 border-amber-200"
  else if status.isStr "OverPaymentEvent" then "text-blue-700 bg-blue-50 border-blue-200"
  else if status.isStr "MissedPaymentEvent" then "text-red-700 bg-red-50 border-red-200"
  else "text-slate-700 bg-slate-50 border-slate-200"

/-- The helper `getStatusText`. -/
def getStatusText (status : JSValue) : JSValue :=
  if status.isStr "PaymentReceivedEvent" then .str "Payment Received"
  else if status.isStr "ShortPaymentEvent" then .str "Short Payment"
  else if status.isStr "OverPaymentEvent" then .str "Over Payment"
  else if status.isStr "MissedPaymentEvent" then .str "Missed Payment"
  else status.or (.str "Unknown")

/-- The four event kinds named by the two switches. -/
def eventKinds : List String :=
  ["PaymentReceivedEvent", "ShortPaymentEvent", "OverPaymentEvent", "MissedPaymentEvent"]

/-- Map a function that may throw over a list, left to right. -/
def mapExcept {α β : Type} (f : α → Except JSError β) : List α → Except JSError (List β)
  | [] => .ok []
  | a :: rest =>
    match f a with
    | .error e => .error e
    | .ok b =>
      match mapExcept f rest with
      | .error e => .error e
      | .ok bs => .ok (b :: bs)

/-! ## The Loan Snapshots tab -/

/-- A status badge: the classes returned by `getPaymentStatusColor` and the
child returned by `getStatusText`. -/
structure StatusBadge where
  color : String
  label : JSValue

/-- One row of the section Recent Payments of a snapshot. -/
structure RecentPaymentRow where
  date : JSValue
  description : JSValue
  amount : String
  badge : StatusBadge

/-- The text of the card Outstanding Balance. -/
def outstandingBalanceCard (rt : Runtime) (loanSnapshot : JSValue) : Except JSError String := do
  let outstanding_balance ← getProp loanSnapshot "outstanding_balance"
  pure (formatCurrency rt outstanding_balance)

/-- The badge of a row of `loanSnapshot.recent_payments`. -/
def recentPaymentBadge (payment : JSValue) : Except JSError StatusBadge := do
  let status ← getProp payment "status"
  pure { color := getPaymentStatusColor status, label := getStatusText status }

/-- The callback mapped over `loanSnapshot.recent_payments`. -/
def recentPaymentRow (rt : Runtime) (payment : JSValue) : Except JSError RecentPaymentRow := do
  let date ← getProp payment "date"
  let description ← getProp payment "description"
  let amount ← getProp payment "amount"
  let badge ← recentPaymentBadge payment
  pure { date := formatDate rt date, description := description.or (.str "Payment"),
         amount := formatCurrency rt amount, badge := badge }

/-- The section Recent Payments: `none` when it is not rendered. -/
def recentPaymentsSection (rt : Runtime) (loanSnapshot : JSValue) :
    Except JSError (Option (List RecentPaymentRow)) := do
  let recent_payments ← getProp loanSnapshot "recent_payments"
  if !recent_payments.truthy then pure none
  else
    let length ← getProp recent_payments "length"
    if !length.gt rt 0 then pure none
    else
      match recent_payments with
      | .arr items => do
        let rows ← mapExcept (recentPaymentRow rt) items
        pure (some rows)
      | _ => .error (.typeError "map")

/-! ## The Payments tab -/

/-- The status cell of a row of the payments table. -/
def paymentStatusCell (payment : JSValue) : Except JSError StatusBadge := do
  let payment_status ← getProp payment "payment_status"
  pure { color := getPaymentStatusColor payment_status, label := getStatusText payment_status }

/-! ## The Upload tab: the result panel -/

/-- The icon at the head of the result panel. -/
inductive Icon where
  | checkCircle : Icon
  | xCircle : Icon

/-- One rendered validation error. -/
structure ErrorEntry where
  row : JSValue
  field : JSValue
  message : JSValue

/-- The box Validation Errors: the count of its header, the rendered entries
and the number of the notice of further errors, when there is one. -/
structure ErrorsBox where
  count : Nat
  entries : List ErrorEntry
  more : Option Nat

/-- One rendered warning. -/
structure WarningEntry where
  row : JSValue
  message : JSValue

/-- The box Warnings. -/
structure WarningsBox where
  count : Nat
  entries : List WarningEntry
  more : Option Nat

/-- The part of the panel rendered when `uploadResult.validation` is truthy. -/
structure ValidationView where
  rowsProcessed : JSValue
  validRows : JSValue
  paymentsCreated : JSValue
  errors : Option ErrorsBox
  warnings : Option WarningsBox

/-- The upload result panel. -/
structure ResultPanel where
  containerClass : String
  icon : Icon
  headlineClass : String
  headline : JSValue
  validation : Option ValidationView

/-- The optional read `v?.length`. -/
def optLength (v : JSValue) : JSValue :=
  match v with
  | .undefined => .undefined
  | .null => .undefined
  | other =>
    match getProp other "length" with
    | .ok n => n
    | .error _ => .undefined

/-- The callback mapped over the first ten validation errors. -/
def errorEntry (error : JSValue) : Except JSError ErrorEntry := do
  let row ← getProp error "row"
  let field ← getProp error "field"
  let message ← getProp error "message"
  pure { row := row, field := field, message := message }

/-- The callback mapped over the first five warnings. -/
def warningEntry (warning : JSValue) : Except JSError WarningEntry := do
  let row ← getProp warning "row"
  let message ← getProp warning "message"
  pure { row := row, message := message }

/-- The box Validation Errors: rendered when `errors?.length > 0`. -/
def errorsBox (rt : Runtime) (errors : JSValue) : Except JSError (Option ErrorsBox) :=
  if !(optLength errors).gt rt 0 then pure none
  else
    match errors with
    | .arr items => do
      let entries ← mapExcept errorEntry (items.take 10)
      pure (some { count := items.length, entries := entries,
                   more := if items.length > 10 then some (items.length - 10) else none })
    | _ => .error (.typeError "map")

/-- The box Warnings: rendered when `warnings?.length > 0`. -/
def warningsBox (rt : Runtime) (warnings : JSValue) : Except JSError (Option WarningsBox) :=
  if !(optLength warnings).gt rt 0 then pure none
  else
    match warnings with
    | .arr items => do
      let entries ← mapExcept warningEntry (items.take 5)
      pure (some { count := items.length, entries := entries,
                   more := if items.length > 5 then some (items.length - 5) else none })
    | _ => .error (.typeError "map")

/-- The block guarded by `uploadResult.validation`. -/
def validationView (rt : Runtime) (uploadResult : JSValue) :
    Except JSError (Option ValidationView) := do
  let validation ← getProp uploadResult "validation"
  if !validation.truthy then pure none
  else
    let processed_rows ← getProp validation "processed_rows"
    let valid_rows ← getProp validation "valid_rows"
    let payments_processed ← getProp uploadResult "payments_processed"
    let errors ← getProp validation "errors"
    let errorsView ← errorsBox rt errors
    let warnings ← getProp validation "warnings"
    let warningsView ← warningsBox rt warnings
    pure (some { rowsProcessed := processed_rows.or (.num 0), validRows := valid_rows.or (.num 0),
                 paymentsCreated := payments_processed.or (.num 0),
                 errors := errorsView, warnings := warningsView })

/-- The upload result panel: `none` when `uploadResult` is falsy. -/
def uploadResultPanel (rt : Runtime) (uploadResult : JSValue) :
    Except JSError (Option ResultPanel) :=
  if !uploadResult.truthy then pure none
  else do
    let status ← getProp uploadResult "status"
    let message ← getProp uploadResult "message"
    let success := status.isStr "success"
    let validation ← validationView rt uploadResult
    pure (some {
      containerClass :=
        "mt-8 p-6 rounded-xl border-2 " ++
          (if success then "bg-emerald-50 border-emerald-200" else "bg-red-50 border-red-200"),
      icon := if success then .checkCircle else .xCircle,
      headlineClass :=
        "font-semibold text-lg " ++ (if success then "text-emerald-800" else "text-red-800"),
      headline :=
        message.or (if success then .str "Upload Successful" else .str "Upload Failed"),
      validation := validation })

/-! ## fetchPayments, fetchValidationLogs, handleUpload, handleKeyPress -/

/-- The property `message` of a caught error. -/
def JSError.message (rt : Runtime) : JSError → String
  | .typeError k => rt.typeErrorMessage k
  | .rejected m => m

/-- A call of an async function whose promise is dropped: it runs, and a
rejection of its promise does not reach the caller. -/
def Eff.detached (m : Eff Unit) : Eff Unit := fun s => (.ok (), (m s).2)

/-- The handler `fetchPayments` (its request asks for `limit=50`); `res` is how
the request settles. -/
def fetchPayments (res : FetchResult) : Eff Unit := do
  Eff.set (fun s => { s with loading := true })
  Eff.tryFinally
    (Eff.tryCatch
      (do
        let response ← awaitFetch res
        if response.ok then
          let data ← Eff.lift response.json
          Eff.set (fun s => { s with payments := data })
        else
          Eff.ret ())
      (fun _ => Eff.ret ()))
    (Eff.set (fun s => { s with loading := false }))

/-- The handler `fetchValidationLogs`. -/
def fetchValidationLogs (res : FetchResult) : Eff Unit := do
  Eff.set (fun s => { s with loading := true })
  Eff.tryFinally
    (Eff.tryCatch
      (do
        let response ← awaitFetch res
        if response.ok then
          let data ← Eff.lift response.json
          Eff.set (fun s => { s with validationLogs := data })
        else
          Eff.ret ())
      (fun _ => Eff.ret ()))
    (Eff.set (fun s => { s with loading := false }))

/-- The object stored by the `catch` clause of `handleUpload`. -/
def uploadFailure (message : String) : JSValue :=
  .obj [
    ("status", .str "error"),
    ("message", .str "Failed to upload file"),
    ("validation", .obj [
      ("errors", .arr [.obj [("row", .num 0), ("field", .str "network"),
                             ("message", .str message)]]),
      ("processed_rows", .num 0),
      ("valid_rows", .num 0)])]

/-- The handler `handleUpload`; `res` is how the upload request settles and
`paymentsRes` how the request of a nested `fetchPayments` would settle.  The
values of `file` and `activeTab` are those of the render that created the
handler, the state at the call. -/
def handleUpload (rt : Runtime) (res paymentsRes : FetchResult) : Eff Unit := fun s0 =>
  let file := s0.file
  let activeTab := s0.activeTab
  match file with
  | none => Eff.ret () s0
  | some _ =>
    (do
      Eff.set (fun s => { s with uploading := true })
      Eff.tryFinally
        (Eff.tryCatch
          (do
            let response ← awaitFetch res
            let data ← Eff.lift response.json
            Eff.set (fun s => { s with uploadResult := data })
            let status ← Eff.lift (getProp data "status")
            if status.isStr "success" then
              if activeTab = "payments" then
                Eff.detached (fetchPayments paymentsRes)
              else
                Eff.ret ()
            else
              Eff.ret ())
          (fun error =>
            Eff.set (fun s => { s with uploadResult := uploadFailure (error.message rt) })))
        (Eff.set (fun s => { s with uploading := false }))) s0

/-- The handler `handleKeyPress` of the two inputs of the snapshots tab; `key`
is `e.key`. -/
def handleKeyPress (rt : Runtime) (res : FetchResult) (key : String) : Eff Unit :=
  if key = "Enter" then fetchLoanSnapshot rt res else Eff.ret ()

/-- The attribute `disabled` of the button Get Snapshot. -/
def getSnapshotDisabled (st : State) : Bool :=
  decide (st.loanId = "") || decide (st.snapshotDate = "") || st.snapshotLoading

/-- The button Upload File is on the page: the upload tab is active and a file is chosen. -/
def uploadButtonShown (st : State) : Bool :=
  decide (st.activeTab = "upload") && st.file.isSome

/-! ## fetchLoanSnapshot around its await -/

/-- The part of `fetchLoanSnapshot` that runs up to `await fetch`: the guard
and the three resets.  It yields the snapshot date the call has captured when
the request is issued, and `none` when the guard returns. -/
def fetchLoanSnapshotStart : Eff (Option String) := fun s0 =>
  let loanId := s0.loanId
  let snapshotDate := s0.snapshotDate
  if loanId = "" ∨ snapshotDate = "" then
    (do
      Eff.set (fun s => { s with snapshotError := .str "Please enter both loan ID and snapshot date" })
      Eff.ret none) s0
  else
    (do
      Eff.set (fun s => { s with snapshotLoading := true })
      Eff.set (fun s => { s with snapshotError := .null })
      Eff.set (fun s => { s with loanSnapshot := .null })
      Eff.ret (some snapshotDate)) s0

/-- The part of `fetchLoanSnapshot` that runs once its request has settled:
the rest of the `try` block, the `catch` clause and `finally`. -/
def fetchLoanSnapshotResume (rt : Runtime) (snapshotDate : String) (res : FetchResult) :
    Eff Unit :=
  Eff.tryFinally
    (Eff.tryCatch
      (do
        let response ← awaitFetch res
        if response.ok then
          let data ← Eff.lift response.json
          snapshotOk rt snapshotDate data
        else
          snapshotNotOk response)
      (fun _ => Eff.set (fun s =>
        { s with snapshotError := .str "Network error: Failed to fetch loan snapshot" })))
    (Eff.set (fun s => { s with snapshotLoading := false }))

/-- The rest of a call of `fetchLoanSnapshot` after its first part. -/
def resumeSnapshotCall (rt : Runtime) (call : Option String) (res : FetchResult) : Eff Unit :=
  match call with
  | some snapshotDate => fetchLoanSnapshotResume rt snapshotDate res
  | none => Eff.ret ()

/-- Two calls of `fetchLoanSnapshot` that overlap.  The first call is started
and awaits its response; the loan id input is changed to `newLoanId` (its
`onChange` calls `setLoanId`) and Enter is pressed in it, which starts the
second call, since `handleKeyPress` does not look at `snapshotLoading`; then
the response of the first call arrives, and then that of the second. -/
def overlappingSnapshotCalls (rt : Runtime) (newLoanId : String) (res1 res2 : FetchResult) :
    Eff Unit := do
  let first ← fetchLoanSnapshotStart
  Eff.set (fun s => { s with loanId := newLoanId })
  let second ← fetchLoanSnapshotStart
  resumeSnapshotCall rt first res1
  resumeSnapshotCall rt second res2

/-! ## The Payments tab: the table -/

/-- One row of the payments table. -/
structure PaymentRow where
  key : JSValue
  number : JSValue
  description : JSValue
  borrower : JSValue
  loan : JSValue
  date : JSValue
  amount : String
  currency : JSValue
  status : StatusBadge

/-- What the payments tab shows under its header. -/
inductive PaymentsView where
  | spinner : PaymentsView
  | noPayments : PaymentsView
  | table (rows : List PaymentRow) (footer : Bool) : PaymentsView

/-- The test `v === n` against a number literal. -/
def JSValue.isNum (v : JSValue) (n : Rat) : Bool :=
  match v with
  | .num q => decide (q = n)
  | _ => false

/-- The callback mapped over `payments`; `index` is the position of the row. -/
def paymentRow (rt : Runtime) (payment : JSValue) (index : Nat) : Except JSError PaymentRow := do
  let id ← getProp payment "id"
  let payment_id ← getProp payment "payment_id"
  let description ← getProp payment "description"
  let borrower_id ← getProp payment "borrower_id"
  let loan_id ← getProp payment "loan_id"
  let payment_date ← getProp payment "payment_date"
  let amount ← getProp payment "amount"
  let currency ← getProp payment "currency"
  let status ← paymentStatusCell payment
  pure { key := id.or (.num (index : Nat)), number := payment_id.or id,
         description := description.or (.str "Payment transaction"),
         borrower := borrower_id, loan := loan_id, date := formatDate rt payment_date,
         amount := formatCurrency rt amount, currency := currency.or (.str "USD"),
         status := status }

/-- Map a callback that receives the index over a list, left to right. -/
def mapIdxExcept {α β : Type} (f : α → Nat → Except JSError β) :
    List α → Nat → Except JSError (List β)
  | [], _ => .ok []
  | a :: rest, i =>
    match f a i with
    | .error e => .error e
    | .ok b =>
      match mapIdxExcept f rest (i + 1) with
      | .error e => .error e
      | .ok bs => .ok (b :: bs)

/-- The payments tab under its header: the spinner while `loading`, the empty
notice when `payments.length === 0`, else the table with one row per payment
and the footer when `payments.length >= 50`. -/
def paymentsView (rt : Runtime) (st : State) : Except JSError PaymentsView :=
  if st.loading then pure .spinner
  else do
    let length ← getProp st.payments "length"
    if length.isNum 0 then pure .noPayments
    else
      match st.payments with
      | .arr items => do
        let rows ← mapIdxExcept (paymentRow rt) items 0
        pure (.table rows (length.ge rt 50))
      | _ => .error (.typeError "map")

/-! ## The Logs tab -/

/-- The status cell of a row of the upload logs table: the classes chosen by
the ternary and the text of the badge. -/
def logStatusCell (log : JSValue) : Except JSError StatusBadge := do
  let validation_status ← getProp log "validation_status"
  pure {
    color :=
      if validation_status.isStr "success" then "text-emerald-700 bg-emerald-50 border-emerald-200"
      else "text-red-700 bg-red-50 border-red-200",
    label := if validation_status.isStr "success" then .str "Success" else .str "Failed" }

/-! ## The ledger store and the event classifier

The repository holds the dashboard only; the two components below are the
backend described by the specification (sections 3, 4.2 and 4.4). -/

/-- The closed set of event kinds. -/
inductive EventKind where
  | PaymentReceivedEvent : EventKind
  | ShortPaymentEvent : EventKind
  | OverPaymentEvent : EventKind
  | MissedPaymentEvent : EventKind
  deriving DecidableEq, Repr

/-- Modelled from the spec: the PaymentRecord of section 3, whose code is not
in the repository.  The fields are those a caller supplies and the assigned
event kind (`ingested_at` is set by the system and is for audit only); dates
are day numbers and amounts are whole minor units. -/
structure PaymentRecord where
  id : String
  borrower_id : String
  loan_id : String
  date : Nat
  currency : String
  description : String
  amount : Int
  event_kind : EventKind
  deriving DecidableEq, Repr

/-- Modelled from the spec: the result of `append` of section 4.4, whose code
is not in the repository. -/
inductive AppendResult where
  | ok : AppendResult
  | ConflictError : AppendResult
  deriving DecidableEq, Repr

/-- Modelled from the spec: the operation `append` of the Ledger Store of
section 4.4, whose code is not in the repository.  It returns its result and
the ledger afterwards: a record with a new id is stored; an identical record
under a stored id is a silent success; a different record under a stored id
fails with ConflictError and does not overwrite the original. -/
def ledgerAppend (record : PaymentRecord) (ledger : List PaymentRecord) :
    AppendResult × List PaymentRecord :=
  match ledger.find? (fun stored => stored.id = record.id) with
  | none => (.ok, ledger ++ [record])
  | some stored =>
    if stored = record then (.ok, ledger) else (.ConflictError, ledger)

/-- The records stored under an id. -/
def storedUnder (id : String) (ledger : List PaymentRecord) : List PaymentRecord :=
  ledger.filter (fun stored => stored.id = id)

/-- Modelled from the spec: an entry of the installment schedule of section 3
as the classifier of section 4.2 sees it (its code is not in the repository):
the due date, the due amount, and the amount already applied to the entry by
earlier payments and carried surpluses. -/
structure ScheduleEntry where
  due_date : Nat
  due_amount : Int
  applied : Int
  deriving DecidableEq, Repr

/-- Modelled from the spec: the remaining due amount of an entry of section
4.2, the due amount less what earlier payments have satisfied. -/
def ScheduleEntry.remaining (e : ScheduleEntry) : Int :=
  e.due_amount - e.applied

/-- Modelled from the spec: the matching step of `classify` of section 4.2,
whose code is not in the repository.  Among the entries due on or before the
payment date that are not yet fully satisfied, the schedule, which is ordered
by due date, is consumed first-due, first-matched. -/
def matchEntry (payment : PaymentRecord) (schedule : List ScheduleEntry) : Option ScheduleEntry :=
  schedule.find? (fun e => decide (e.due_date ≤ payment.date) && decide (0 < e.remaining))

/-- Modelled from the spec: equality within the epsilon of section 4.2, 0.01
minor units, on amounts in whole minor units: 100 times the distance is at
most 1. -/
def withinEpsilon (amount due : Int) : Bool :=
  decide (100 * (amount - due).natAbs ≤ 1)

/-- Modelled from the spec: the operation `classify` of section 4.2, whose
code is not in the repository.  The amount is compared with the remaining due
amount of the matched entry; a payment that matches no entry is an over
payment against the principal. -/
def classify (payment : PaymentRecord) (schedule : List ScheduleEntry) : EventKind :=
  match matchEntry payment schedule with
  | none => .OverPaymentEvent
  | some e =>
    if withinEpsilon payment.amount e.remaining then .PaymentReceivedEvent
    else if payment.amount < e.remaining then .ShortPaymentEvent
    else .OverPaymentEvent

/-- A payment of the given amount on day 1 for loan L1. -/
def paymentOf (amount : Int) : PaymentRecord :=
  { id := "P-1", borrower_id := "B1", loan_id := "L1", date := 1, currency := "ZAR",
    description := "Installment 1", amount := amount, event_kind := .PaymentReceivedEvent }

/-- A second payment record, stored under another id. -/
def secondPayment : PaymentRecord :=
  { id := "P-2", borrower_id := "B1", loan_id := "L1", date := 32, currency := "ZAR",
    description := "Installment 2", amount := 2000, event_kind := .PaymentReceivedEvent }

/-- The ledger reached from the empty one by appending the records in turn. -/
def ledgerOf (records : List PaymentRecord) : List PaymentRecord :=
  records.foldl (fun ledger record => (ledgerAppend record ledger).2) []

/-- The schedule of the scenarios of section 8: one entry of 2000 due on day 1. -/
def scenarioSchedule : List ScheduleEntry :=
  [{ due_date := 1, due_amount := 2000, applied := 0 }]

/-! ## A runtime for examples -/

/-- A runtime on which the definitions are evaluated in examples: strings
convert to themselves, nothing else converts to a number, and the two
formatters print the string conversion of their argument. -/
def exampleRuntime : Runtime where
  toStr := fun v =>
    match v with
    | .str s => s
    | .undefined => "undefined"
    | .null => "null"
    | _ => "?"
  toNumber := fun _ => none
  formatZAR := fun v =>
    match v with
    | .num q => "R " ++ toString q.num ++ "/" ++ toString q.den
    | _ => "R ?"
  toLocaleDateString := fun v =>
    match v with
    | .str s => .ok s
    | _ => .ok "Invalid Date"
  typeErrorMessage := fun k => "Cannot read properties of null (reading " ++ k ++ ")"

/-- A state in which a loan id and a date have been entered on the snapshots tab. -/
def exampleState : State :=
  { State.initial with loanId := "L1", snapshotDate := "2024-01-31", activeTab := "snapshots" }

/-- An OK response carrying the parsed body `data`. -/
def okResponse (data : JSValue) : FetchResult :=
  .resolves { ok := true, status := 200, statusText := "OK", json := .ok data }

/-- The snapshot held in `loanSnapshot` when a call of `fetchLoanSnapshot` completes. -/
def storedSnapshot (rt : Runtime) (res : FetchResult) (st : State) : JSValue :=
  (fetchLoanSnapshot rt res st).2.loanSnapshot

/-- Conservation on a snapshot: its three amounts are numbers and
`outstanding_balance = principal_amount - total_paid`. -/
def conservation (v : JSValue) : Bool :=
  match getProp v "outstanding_balance", getProp v "total_paid", getProp v "principal_amount" with
  | .ok (.num ob), .ok (.num tp), .ok (.num pa) => decide (ob = pa - tp)
  | _, _, _ => false

/-- A snapshot payload for loan L1 after one payment of 2000, without `principal_amount`. -/
def snapshotNoPrincipal : JSValue :=
  .obj [("loan_id", .str "L1"), ("outstanding_balance", .num 22000),
        ("total_paid", .num 2000), ("payments_made", .num 1)]

/-- A snapshot payload whose three amounts are all 0. -/
def snapshotZeroPrincipal : JSValue :=
  .obj [("loan_id", .str "L0"), ("outstanding_balance", .num 0),
        ("total_paid", .num 0), ("payments_made", .num 0), ("principal_amount", .num 0)]

/-- A snapshot payload of a loan without payments: only the loan data is present. -/
def snapshotNoPayments : JSValue :=
  .obj [("loan_id", .str "L1"), ("principal_amount", .num 24000)]

/-- A snapshot payload carrying one recent payment. -/
def snapshotWithRecent : JSValue :=
  .obj [("loan_id", .str "L1"), ("outstanding_balance", .num 22000), ("total_paid", .num 2000),
        ("payments_made", .num 1), ("principal_amount", .num 24000),
        ("recent_payments", .arr [.obj [("date", .str "2024-01-15"),
          ("description", .str "Installment 1"), ("amount", .num 2000),
          ("status", .str "PaymentReceivedEvent")]])]

/-- A snapshot payload of an overpaid loan: the outstanding balance is -500. -/
def snapshotOverpaid : JSValue :=
  .obj [("loan_id", .str "L1"), ("outstanding_balance", .num (-500)), ("total_paid", .num 24500),
        ("payments_made", .num 13), ("principal_amount", .num 24000)]

/-- A payment record as the payments list returns it: it carries `payment_status`. -/
def shortPaymentRecord : JSValue :=
  .obj [("id", .str "P-7"), ("borrower_id", .str "B1"), ("loan_id", .str "L1"),
        ("date", .str "2024-01-15"), ("currency", .str "ZAR"),
        ("description", .str "Installment 1"), ("amount", .num 1500),
        ("payment_status", .str "ShortPaymentEvent")]

/-- The rendered entry of a validation error that is neither `null` nor `undefined`. -/
def entryOf (error : JSValue) : ErrorEntry :=
  { row := JSValue.read error "row", field := JSValue.read error "field",
    message := JSValue.read error "message" }

/-- An upload result of a partial failure: status success, seven valid rows, three errors. -/
def partialUpload : JSValue :=
  .obj [("status", .str "success"), ("message", .str "Processed 10 rows"),
        ("validation", .obj [("processed_rows", .num 10), ("valid_rows", .num 7),
          ("errors", .arr [
            .obj [("row", .num 2), ("field", .str "amount"), ("message", .str "Invalid amount")],
            .obj [("row", .num 5), ("field", .str "date"), ("message", .str "Invalid date")],
            .obj [("row", .num 9), ("field", .str "loan_id"), ("message", .str "Missing field")]])]),
        ("payments_processed", .num 7)]

/-- A state of the upload tab in which a file has been chosen. -/
def uploadState : State :=
  { State.initial with file := some { name := "january.csv", size := 2048 } }

/-- A body of the payments list with 51 entries. -/
def fiftyOnePayments : JSValue :=
  .arr (List.replicate 51 shortPaymentRecord)

/-- The answer 404 of the snapshot endpoint for an unknown loan. -/
def notFoundResponse : FetchResult :=
  .resolves { ok := false, status := 404, statusText := "Not Found",
              json := .ok (.obj [("detail", .str "Loan not found")]) }

/-! ## Basic facts -/

theorem getProp_eq_read {v : JSValue} (hu : v ≠ .undefined) (hn : v ≠ .null) (k : String) :
    getProp v k = .ok (read v k) := by
  cases v <;> simp_all [getProp]

theorem not_nullish_of_getProp {v w : JSValue} {k : String} (h : getProp v k = .ok w) :
    v ≠ .undefined ∧ v ≠ .null := by
  cases v <;> simp_all [getProp]

theorem read_of_getProp {v w : JSValue} {k : String} (h : getProp v k = .ok w) :
    read v k = w := by
  cases v <;> simp_all [getProp]

theorem getProp_obj (props : List (String × JSValue)) (k : String) :
    getProp (.obj props) k = .ok (JSValue.lookup k props) := rfl

theorem lookup_cons (k n : String) (v : JSValue) (rest : List (String × JSValue)) :
    JSValue.lookup k ((n, v) :: rest) = if n = k then v else JSValue.lookup k rest := rfl

theorem or_undefined (b : JSValue) : JSValue.or .undefined b = b := rfl

theorem or_of_truthy {a : JSValue} (b : JSValue) (h : a.truthy = true) : a.or b = a := by
  simp [JSValue.or, h]

theorem or_ne_undefined (a : JSValue) {b : JSValue} (h : b.truthy = true) :
    a.or b ≠ .undefined := by
  unfold JSValue.or
  split
  · next ha => intro h0; rw [h0] at ha; simp [JSValue.truthy] at ha
  · intro h0; rw [h0] at h; simp [JSValue.truthy] at h

theorem isObj_of_getProp_num {v : JSValue} {k : String} {q : Rat}
    (h : getProp v k = .ok (.num q)) (hk : k ≠ "length") :
    v.truthy = true ∧ v.isArray = false := by
  cases v <;> simp_all [getProp, JSValue.read, JSValue.truthy, JSValue.isArray]

theorem truthy_ne_null {v : JSValue} (h : v.truthy = true) : v ≠ .null := by
  intro h0; rw [h0] at h; simp [JSValue.truthy] at h

theorem or_truthy (a : JSValue) {b : JSValue} (h : b.truthy = true) : (a.or b).truthy = true := by
  unfold JSValue.or
  split
  · next ha => exact ha
  · exact h

theorem normalizeSnapshot_truthy (rt : Runtime) (d : String) (p v : JSValue)
    (h : normalizeSnapshot rt d p = .ok v) : v.truthy = true := by
  cases p <;> simp [normalizeSnapshot, getProp, bind, Except.bind, pure, Except.pure] at h <;>
    (subst h; rfl)

theorem truthy_of_read {v : JSValue} {k : String} (hk : k ≠ "length")
    (h : JSValue.read v k ≠ .undefined) : v.truthy = true ∧ v.isArray = false := by
  cases v <;> simp_all [JSValue.read, JSValue.truthy, JSValue.isArray]

theorem normalizeSnapshot_eq (rt : Runtime) (d : String) {p : JSValue}
    (hu : p ≠ .undefined) (hn : p ≠ .null) :
    normalizeSnapshot rt d p = .ok (.obj [
      ("loan_id", read p "loan_id"),
      ("snapshot_date", .str d),
      ("outstanding_balance", read p "outstanding_balance"),
      ("total_paid", (read p "total_paid").or (.num 0)),
      ("payments_made", (read p "payments_made").or (.num 0)),
      ("principal_amount", (read p "principal_amount").or (.num 24000)),
      ("borrower_id", (read p "borrower_id").or (.str "N/A")),
      ("loan_name", (read p "loan_name").or (.str ("Loan " ++ rt.toStr (read p "loan_id"))))]) := by
  simp only [normalizeSnapshot, getProp_eq_read hu hn]
  rfl

/-- The array branch: the normalised first element is stored. -/
theorem fetchLoanSnapshot_array (rt : Runtime) (st : State) (r : Response) (p : JSValue)
    (rest : List JSValue) (hid : st.loanId ≠ "") (hdate : st.snapshotDate ≠ "")
    (hok : r.ok = true) (hjson : r.json = .ok (.arr (p :: rest)))
    (hu : p ≠ .undefined) (hn : p ≠ .null) :
    fetchLoanSnapshot rt (.resolves r) st =
      (.ok (), { st with
        snapshotLoading := false, snapshotError := .null,
        loanSnapshot := .obj [
          ("loan_id", read p "loan_id"),
          ("snapshot_date", .str st.snapshotDate),
          ("outstanding_balance", read p "outstanding_balance"),
          ("total_paid", (read p "total_paid").or (.num 0)),
          ("payments_made", (read p "payments_made").or (.num 0)),
          ("principal_amount", (read p "principal_amount").or (.num 24000)),
          ("borrower_id", (read p "borrower_id").or (.str "N/A")),
          ("loan_name", (read p "loan_name").or (.str ("Loan " ++ rt.toStr (read p "loan_id"))))] }) := by
  simp [fetchLoanSnapshot, hid, hdate, hok, hjson, Eff.tryFinally, Eff.tryCatch, awaitFetch,
    Eff.set, Eff.ret, Eff.lift, snapshotOk, bind, Eff.andThen, normalizeSnapshot_eq rt _ hu hn]

/-- The single-object branch: the body is stored as it is. -/
theorem fetchLoanSnapshot_single (rt : Runtime) (st : State) (r : Response) (data : JSValue)
    (hid : st.loanId ≠ "") (hdate : st.snapshotDate ≠ "")
    (hok : r.ok = true) (hjson : r.json = .ok data)
    (ht : data.truthy = true) (ha : data.isArray = false) :
    fetchLoanSnapshot rt (.resolves r) st =
      (.ok (), { st with
        snapshotLoading := false, snapshotError := .null, loanSnapshot := data }) := by
  cases data <;>
    simp_all [fetchLoanSnapshot, Eff.tryFinally, Eff.tryCatch, awaitFetch,
      Eff.set, Eff.ret, Eff.lift, snapshotOk, bind, Eff.andThen, JSValue.truthy, JSValue.isArray]

/-! ## The principal default (C1) -/

/-- C1, as stated, fails: an OK response whose body is the single object
`snapshotNoPrincipal` (no `principal_amount`) leaves a stored snapshot whose
`principal_amount` is absent, not 24000. -/
theorem single_object_principal_not_defaulted :
    getProp snapshotNoPrincipal "principal_amount" = .ok .undefined ∧
    getProp (storedSnapshot exampleRuntime (okResponse snapshotNoPrincipal) exampleState)
      "principal_amount" = .ok .undefined ∧
    getProp (storedSnapshot exampleRuntime (okResponse snapshotNoPrincipal) exampleState)
      "principal_amount" ≠ .ok (.num 24000) := by
  have h : storedSnapshot exampleRuntime (okResponse snapshotNoPrincipal) exampleState
      = snapshotNoPrincipal := by
    simp [storedSnapshot, okResponse,
      fetchLoanSnapshot_single exampleRuntime exampleState
        { ok := true, status := 200, statusText := "OK", json := .ok snapshotNoPrincipal }
        snapshotNoPrincipal (by decide) (by decide) rfl rfl rfl rfl]
  rw [h]
  simp [snapshotNoPrincipal, getProp, JSValue.read, JSValue.lookup]

/-- C1, amended: for an OK response whose payload carries no `principal_amount`,
the stored snapshot has `principal_amount = 24000` when the payload is the
first element of a non-empty array; when the payload is a single object it is
stored as it is, so its `principal_amount` stays absent. -/
theorem principal_default_array_only (rt : Runtime) (st : State) (r : Response) (p : JSValue)
    (rest : List JSValue) (hid : st.loanId ≠ "") (hdate : st.snapshotDate ≠ "")
    (hok : r.ok = true) (habsent : getProp p "principal_amount" = .ok .undefined) :
    (r.json = .ok (.arr (p :: rest)) →
      getProp (storedSnapshot rt (.resolves r) st) "principal_amount" = .ok (.num 24000)) ∧
    (r.json = .ok p → p.truthy = true → p.isArray = false →
      storedSnapshot rt (.resolves r) st = p ∧
      getProp (storedSnapshot rt (.resolves r) st) "principal_amount" = .ok .undefined) := by
  obtain ⟨hu, hn⟩ := not_nullish_of_getProp habsent
  have hread := read_of_getProp habsent
  constructor
  · intro hjson
    simp [storedSnapshot, fetchLoanSnapshot_array rt st r p rest hid hdate hok hjson hu hn,
      getProp_obj, lookup_cons, hread, or_undefined]
  · intro hjson ht ha
    have h : storedSnapshot rt (.resolves r) st = p := by
      simp [storedSnapshot, fetchLoanSnapshot_single rt st r p hid hdate hok hjson ht ha]
    exact ⟨h, by rw [h]; exact habsent⟩

/-- Witness of `principal_default_array_only`: the payload `snapshotNoPrincipal`
as the only element of an array. -/
theorem principal_default_array_only_witness :
    getProp (storedSnapshot exampleRuntime (okResponse (.arr [snapshotNoPrincipal])) exampleState)
      "principal_amount" = .ok (.num 24000) :=
  (principal_default_array_only exampleRuntime exampleState
    { ok := true, status := 200, statusText := "OK", json := .ok (.arr [snapshotNoPrincipal]) }
    snapshotNoPrincipal [] (by decide) (by decide) rfl rfl).1 rfl

/-! ## Conservation through the normalisation (C2) -/

theorem conservation_iff (v : JSValue) :
    conservation v = true ↔
      ∃ ob tp pa : Rat, getProp v "outstanding_balance" = .ok (.num ob) ∧
        getProp v "total_paid" = .ok (.num tp) ∧
        getProp v "principal_amount" = .ok (.num pa) ∧ ob = pa - tp := by
  unfold conservation
  split
  · next ob tp pa h1 h2 h3 => simp [h1, h2, h3]
  · next hno =>
    simp only [Bool.false_eq_true, false_iff]
    rintro ⟨ob, tp, pa, h1, h2, h3, -⟩
    exact hno ob tp pa h1 h2 h3

/-- C2, as stated, fails: the payload `snapshotZeroPrincipal` satisfies
conservation (0 = 0 - 0), but the snapshot stored for the array response
holding it has `principal_amount = 24000` with the other two amounts still 0. -/
theorem zero_principal_breaks_conservation :
    conservation snapshotZeroPrincipal = true ∧
    conservation
      (storedSnapshot exampleRuntime (okResponse (.arr [snapshotZeroPrincipal])) exampleState)
      = false := by
  have h := fetchLoanSnapshot_array exampleRuntime exampleState
    { ok := true, status := 200, statusText := "OK", json := .ok (.arr [snapshotZeroPrincipal]) }
    snapshotZeroPrincipal [] (by decide) (by decide) rfl rfl
    (by simp [snapshotZeroPrincipal]) (by simp [snapshotZeroPrincipal])
  constructor
  · simp [conservation, snapshotZeroPrincipal, getProp_obj, lookup_cons]
  · simp only [storedSnapshot, okResponse, h]
    simp [conservation, snapshotZeroPrincipal, getProp_obj, lookup_cons, JSValue.read,
      JSValue.or, JSValue.truthy]

/-- C2, amended: for every OK array response whose first element has numeric
`outstanding_balance`, `total_paid` and `principal_amount` satisfying
`outstanding_balance = principal_amount - total_paid`, and whose
`principal_amount` is not 0, the stored snapshot satisfies the same equation. -/
theorem conservation_kept_nonzero_principal (rt : Runtime) (st : State) (r : Response)
    (p : JSValue) (rest : List JSValue) (hid : st.loanId ≠ "") (hdate : st.snapshotDate ≠ "")
    (hok : r.ok = true) (hjson : r.json = .ok (.arr (p :: rest)))
    (hc : conservation p = true) (hpa : getProp p "principal_amount" ≠ .ok (.num 0)) :
    conservation (storedSnapshot rt (.resolves r) st) = true := by
  obtain ⟨ob, tp, pa, h1, h2, h3, heq⟩ := (conservation_iff p).1 hc
  obtain ⟨hu, hn⟩ := not_nullish_of_getProp h1
  have r1 := read_of_getProp h1
  have r2 := read_of_getProp h2
  have r3 := read_of_getProp h3
  have hpa0 : pa ≠ 0 := by
    intro h0
    exact hpa (by rw [h3, h0])
  rw [conservation_iff]
  refine ⟨ob, tp, pa, ?_, ?_, ?_, heq⟩
  · simp [storedSnapshot, fetchLoanSnapshot_array rt st r p rest hid hdate hok hjson hu hn,
      getProp_obj, lookup_cons, r1]
  · simp [storedSnapshot, fetchLoanSnapshot_array rt st r p rest hid hdate hok hjson hu hn,
      getProp_obj, lookup_cons, r2]
    by_cases h0 : tp = 0 <;> simp [JSValue.or, JSValue.truthy, h0]
  · simp [storedSnapshot, fetchLoanSnapshot_array rt st r p rest hid hdate hok hjson hu hn,
      getProp_obj, lookup_cons, r3, JSValue.or, JSValue.truthy, hpa0]

/-- Witness of `conservation_kept_nonzero_principal`: principal 24000, paid 2000,
outstanding 22000. -/
theorem conservation_kept_nonzero_principal_witness :
    conservation (storedSnapshot exampleRuntime
      (okResponse (.arr [.obj [("outstanding_balance", .num 22000), ("total_paid", .num 2000),
        ("principal_amount", .num 24000)]])) exampleState) = true :=
  conservation_kept_nonzero_principal exampleRuntime exampleState
    { ok := true, status := 200, statusText := "OK",
      json := .ok (.arr [.obj [("outstanding_balance", .num 22000), ("total_paid", .num 2000),
        ("principal_amount", .num 24000)]]) }
    (.obj [("outstanding_balance", .num 22000), ("total_paid", .num 2000),
      ("principal_amount", .num 24000)]) []
    (by decide) (by decide) rfl rfl
    (by simp [conservation, getProp_obj, lookup_cons]; norm_num)
    (by simp [getProp_obj, lookup_cons])

/-! ## A snapshot without payments (C3) -/

/-- C3, as stated, fails: the payload `snapshotNoPayments` omits `total_paid`,
`payments_made` and `outstanding_balance`; in the snapshot stored for the array
response holding it `outstanding_balance` is absent while `principal_amount`
is 24000. -/
theorem zero_payments_outstanding_not_principal :
    getProp snapshotNoPayments "total_paid" = .ok .undefined ∧
    getProp snapshotNoPayments "payments_made" = .ok .undefined ∧
    getProp snapshotNoPayments "outstanding_balance" = .ok .undefined ∧
    getProp (storedSnapshot exampleRuntime (okResponse (.arr [snapshotNoPayments])) exampleState)
      "principal_amount" = .ok (.num 24000) ∧
    getProp (storedSnapshot exampleRuntime (okResponse (.arr [snapshotNoPayments])) exampleState)
      "outstanding_balance" ≠
    getProp (storedSnapshot exampleRuntime (okResponse (.arr [snapshotNoPayments])) exampleState)
      "principal_amount" := by
  have h := fetchLoanSnapshot_array exampleRuntime exampleState
    { ok := true, status := 200, statusText := "OK", json := .ok (.arr [snapshotNoPayments]) }
    snapshotNoPayments [] (by decide) (by decide) rfl rfl
    (by simp [snapshotNoPayments]) (by simp [snapshotNoPayments])
  simp only [storedSnapshot, okResponse, h]
  simp [snapshotNoPayments, getProp_obj, lookup_cons, JSValue.lookup, JSValue.read, JSValue.or,
    JSValue.truthy]

/-- C3, amended: for every OK array response whose first element omits
`total_paid`, `payments_made` and `outstanding_balance`, the stored snapshot has
`total_paid = 0` and `payments_made = 0`, and its `outstanding_balance` stays
absent (so it differs from its `principal_amount`); the card Outstanding
Balance then formats the amount 0. -/
theorem zero_payments_defaults (rt : Runtime) (st : State) (r : Response)
    (p : JSValue) (rest : List JSValue) (hid : st.loanId ≠ "") (hdate : st.snapshotDate ≠ "")
    (hok : r.ok = true) (hjson : r.json = .ok (.arr (p :: rest)))
    (h1 : getProp p "total_paid" = .ok .undefined)
    (h2 : getProp p "payments_made" = .ok .undefined)
    (h3 : getProp p "outstanding_balance" = .ok .undefined) :
    getProp (storedSnapshot rt (.resolves r) st) "total_paid" = .ok (.num 0) ∧
    getProp (storedSnapshot rt (.resolves r) st) "payments_made" = .ok (.num 0) ∧
    getProp (storedSnapshot rt (.resolves r) st) "outstanding_balance" = .ok .undefined ∧
    getProp (storedSnapshot rt (.resolves r) st) "outstanding_balance" ≠
      getProp (storedSnapshot rt (.resolves r) st) "principal_amount" ∧
    outstandingBalanceCard rt (storedSnapshot rt (.resolves r) st)
      = .ok (rt.formatZAR (.num 0)) := by
  obtain ⟨hu, hn⟩ := not_nullish_of_getProp h1
  have r1 := read_of_getProp h1
  have r2 := read_of_getProp h2
  have r3 := read_of_getProp h3
  have hp : (JSValue.read p "principal_amount").or (.num 24000) ≠ .undefined :=
    or_ne_undefined _ (by simp [JSValue.truthy])
  simp only [storedSnapshot, fetchLoanSnapshot_array rt st r p rest hid hdate hok hjson hu hn,
    outstandingBalanceCard]
  simp [getProp_obj, lookup_cons, r1, r2, r3, or_undefined, formatCurrency, bind, Except.bind,
    pure, Except.pure]
  exact fun h => hp h.symm

/-- Witness of `zero_payments_defaults`: the payload `snapshotNoPayments`. -/
theorem zero_payments_defaults_witness :
    getProp (storedSnapshot exampleRuntime (okResponse (.arr [snapshotNoPayments])) exampleState)
      "total_paid" = .ok (.num 0) :=
  (zero_payments_defaults exampleRuntime exampleState
    { ok := true, status := 200, statusText := "OK", json := .ok (.arr [snapshotNoPayments]) }
    snapshotNoPayments [] (by decide) (by decide) rfl rfl rfl rfl rfl).1

/-! ## A negative outstanding balance (C4) -/

/-- C4: for every payload with a negative `outstanding_balance` b, the stored
snapshot has `outstanding_balance = b` both in the array branch and in the
single-object branch, the card Outstanding Balance hands exactly b to the
currency formatter, and `formatCurrency` replaces only falsy amounts by 0. -/
theorem negative_balance_surfaced (rt : Runtime) (st : State) (r : Response)
    (p : JSValue) (rest : List JSValue) (b : Rat) (hid : st.loanId ≠ "")
    (hdate : st.snapshotDate ≠ "") (hok : r.ok = true)
    (hb : getProp p "outstanding_balance" = .ok (.num b)) (hneg : b < 0) :
    (r.json = .ok (.arr (p :: rest)) →
      getProp (storedSnapshot rt (.resolves r) st) "outstanding_balance" = .ok (.num b) ∧
      outstandingBalanceCard rt (storedSnapshot rt (.resolves r) st)
        = .ok (rt.formatZAR (.num b))) ∧
    (r.json = .ok p →
      getProp (storedSnapshot rt (.resolves r) st) "outstanding_balance" = .ok (.num b) ∧
      outstandingBalanceCard rt (storedSnapshot rt (.resolves r) st)
        = .ok (rt.formatZAR (.num b))) ∧
    (∀ amount : JSValue, formatCurrency rt amount =
      rt.formatZAR (if amount.truthy then amount else .num 0)) := by
  obtain ⟨hu, hn⟩ := not_nullish_of_getProp hb
  have rb := read_of_getProp hb
  have hb0 : b ≠ 0 := ne_of_lt hneg
  have hor : (JSValue.num b).or (.num 0) = .num b := or_of_truthy _ (by simp [JSValue.truthy, hb0])
  refine ⟨?_, ?_, ?_⟩
  · intro hjson
    simp only [storedSnapshot, fetchLoanSnapshot_array rt st r p rest hid hdate hok hjson hu hn,
      outstandingBalanceCard]
    simp [getProp_obj, lookup_cons, rb, formatCurrency, hor, bind, Except.bind, pure, Except.pure]
  · intro hjson
    obtain ⟨ht, ha⟩ := isObj_of_getProp_num hb (by decide)
    simp only [storedSnapshot, fetchLoanSnapshot_single rt st r p hid hdate hok hjson ht ha,
      outstandingBalanceCard, hb]
    simp [formatCurrency, hor, bind, Except.bind, pure, Except.pure]
  · intro amount
    simp [formatCurrency, JSValue.or]

/-- Witness of `negative_balance_surfaced`: the payload `snapshotOverpaid`,
whose outstanding balance is -500, as a single object. -/
theorem negative_balance_surfaced_witness :
    getProp (storedSnapshot exampleRuntime (okResponse snapshotOverpaid) exampleState)
      "outstanding_balance" = .ok (.num (-500)) :=
  ((negative_balance_surfaced exampleRuntime exampleState
    { ok := true, status := 200, statusText := "OK", json := .ok snapshotOverpaid }
    snapshotOverpaid [] (-500) (by decide) (by decide) rfl rfl (by norm_num)).2.1 rfl).1

/-! ## The recent payments of a snapshot (C5) -/

/-- C5, as stated, fails: the payload `snapshotWithRecent` has a non-empty
`recent_payments` list, but the snapshot stored for the array response holding
it has no `recent_payments`, and the section Recent Payments is not rendered. -/
theorem array_branch_drops_recent_payments :
    getProp snapshotWithRecent "recent_payments" =
      .ok (.arr [.obj [("date", .str "2024-01-15"), ("description", .str "Installment 1"),
        ("amount", .num 2000), ("status", .str "PaymentReceivedEvent")]]) ∧
    getProp (storedSnapshot exampleRuntime (okResponse (.arr [snapshotWithRecent])) exampleState)
      "recent_payments" = .ok .undefined ∧
    recentPaymentsSection exampleRuntime
      (storedSnapshot exampleRuntime (okResponse (.arr [snapshotWithRecent])) exampleState)
      = .ok none := by
  have h := fetchLoanSnapshot_array exampleRuntime exampleState
    { ok := true, status := 200, statusText := "OK", json := .ok (.arr [snapshotWithRecent]) }
    snapshotWithRecent [] (by decide) (by decide) rfl rfl
    (by simp [snapshotWithRecent]) (by simp [snapshotWithRecent])
  simp only [storedSnapshot, okResponse, h, recentPaymentsSection]
  simp [snapshotWithRecent, getProp_obj, lookup_cons, JSValue.lookup, JSValue.truthy, bind,
    Except.bind, pure, Except.pure]

/-- C5, amended: for every OK response whose payload has a non-empty
`recent_payments` list, the stored snapshot carries that same list, and the
section Recent Payments is rendered from it, when the payload is a single
object; when the payload is the first element of an array the stored snapshot
has no `recent_payments` and the section is not rendered. -/
theorem recent_payments_kept_single_only (rt : Runtime) (st : State) (r : Response)
    (p : JSValue) (rest : List JSValue) (items : List JSValue) (hid : st.loanId ≠ "")
    (hdate : st.snapshotDate ≠ "") (hok : r.ok = true)
    (hrp : getProp p "recent_payments" = .ok (.arr items)) (hne : items ≠ []) :
    (r.json = .ok p →
      getProp (storedSnapshot rt (.resolves r) st) "recent_payments" = .ok (.arr items) ∧
      recentPaymentsSection rt (storedSnapshot rt (.resolves r) st) =
        (match mapExcept (recentPaymentRow rt) items with
         | .ok rows => .ok (some rows)
         | .error e => .error e)) ∧
    (r.json = .ok (.arr (p :: rest)) →
      getProp (storedSnapshot rt (.resolves r) st) "recent_payments" = .ok .undefined ∧
      recentPaymentsSection rt (storedSnapshot rt (.resolves r) st) = .ok none) := by
  obtain ⟨hu, hn⟩ := not_nullish_of_getProp hrp
  constructor
  · intro hjson
    have hobj : p.truthy = true ∧ p.isArray = false := by
      cases p <;> simp_all [getProp, JSValue.read, JSValue.truthy, JSValue.isArray]
    have hlen : (0 : Rat) < (items.length : Nat) := by
      have : 0 < items.length := List.length_pos.2 hne
      exact_mod_cast this
    simp only [storedSnapshot,
      fetchLoanSnapshot_single rt st r p hid hdate hok hjson hobj.1 hobj.2, recentPaymentsSection,
      hrp]
    refine ⟨trivial, ?_⟩
    simp only [bind, Except.bind, pure, Except.pure, JSValue.truthy, getProp, JSValue.read,
      JSValue.gt]
    simp only [hlen, decide_True, Bool.not_true, Bool.false_eq_true, if_false, if_true]
    cases mapExcept (recentPaymentRow rt) items <;> rfl
  · intro hjson
    simp only [storedSnapshot, fetchLoanSnapshot_array rt st r p rest hid hdate hok hjson hu hn,
      recentPaymentsSection]
    simp [getProp_obj, lookup_cons, JSValue.lookup, JSValue.truthy, bind, Except.bind, pure,
      Except.pure]

/-- Witness of `recent_payments_kept_single_only`: the payload
`snapshotWithRecent` as a single object. -/
theorem recent_payments_kept_single_only_witness :
    getProp (storedSnapshot exampleRuntime (okResponse snapshotWithRecent) exampleState)
      "recent_payments" =
      .ok (.arr [.obj [("date", .str "2024-01-15"), ("description", .str "Installment 1"),
        ("amount", .num 2000), ("status", .str "PaymentReceivedEvent")]]) :=
  ((recent_payments_kept_single_only exampleRuntime exampleState
    { ok := true, status := 200, statusText := "OK", json := .ok snapshotWithRecent }
    snapshotWithRecent []
    [.obj [("date", .str "2024-01-15"), ("description", .str "Installment 1"),
        ("amount", .num 2000), ("status", .str "PaymentReceivedEvent")]]
    (by decide) (by decide) rfl rfl (by simp)).1 rfl).1

/-! ## The two switches over the event kinds (C6, C7) -/

theorem not_kind_iff (status : JSValue) :
    (∀ k ∈ eventKinds, status ≠ .str k) ↔
      (status.isStr "PaymentReceivedEvent" = false ∧ status.isStr "ShortPaymentEvent" = false ∧
       status.isStr "OverPaymentEvent" = false ∧ status.isStr "MissedPaymentEvent" = false) := by
  cases status <;> simp [eventKinds, JSValue.isStr]

/-- C6: `getStatusText` returns the four labels for the four event kinds (the
labels are pairwise distinct and none is Unknown); every other value is
returned as it is when it is truthy, in particular when it is a non-empty
string, and gives Unknown when it is the empty string, `undefined` or `null`;
the result is never the empty string. -/
theorem getStatusText_exhaustive :
    eventKinds.map (fun k => getStatusText (.str k)) =
      [.str "Payment Received", .str "Short Payment", .str "Over Payment",
       .str "Missed Payment"] ∧
    ["Payment Received", "Short Payment", "Over Payment", "Missed Payment", "Unknown"].Nodup ∧
    (∀ status : JSValue, (∀ k ∈ eventKinds, status ≠ .str k) →
      getStatusText status = status.or (.str "Unknown")) ∧
    (∀ s : String, s ∉ eventKinds → s ≠ "" → getStatusText (.str s) = .str s) ∧
    getStatusText (.str "") = .str "Unknown" ∧
    getStatusText .undefined = .str "Unknown" ∧
    getStatusText .null = .str "Unknown" ∧
    (∀ status : JSValue, getStatusText status ≠ .str "") := by
  refine ⟨by simp [eventKinds, getStatusText, JSValue.isStr], by decide, ?_, ?_,
    by simp [getStatusText, JSValue.isStr, JSValue.or, JSValue.truthy],
    by simp [getStatusText, JSValue.isStr, JSValue.or, JSValue.truthy],
    by simp [getStatusText, JSValue.isStr, JSValue.or, JSValue.truthy], ?_⟩
  · intro status h
    obtain ⟨h1, h2, h3, h4⟩ := (not_kind_iff status).1 h
    simp [getStatusText, h1, h2, h3, h4]
  · intro s hs hne
    have h : ∀ k ∈ eventKinds, JSValue.str s ≠ .str k := by
      intro k hk heq
      injection heq with heq
      exact hs (heq ▸ hk)
    obtain ⟨h1, h2, h3, h4⟩ := (not_kind_iff (.str s)).1 h
    simp [getStatusText, h1, h2, h3, h4, JSValue.or, JSValue.truthy, hne]
  · intro status
    unfold getStatusText
    split
    · simp
    · split
      · simp
      · split
        · simp
        · split
          · simp
          · unfold JSValue.or
            split
            · next ht => intro h0; rw [h0] at ht; simp [JSValue.truthy] at ht
            · simp

/-- C7: `getPaymentStatusColor` gives each of the four event kinds its own
classes (emerald, amber, blue, red), these and the default slate classes are
pairwise distinct, and a value gets the slate classes if and only if it is
none of the four kinds, which is exactly when `getStatusText` takes its
default branch and returns `status || Unknown`. -/
theorem getPaymentStatusColor_exhaustive :
    eventKinds.map (fun k => getPaymentStatusColor (.str k)) =
      ["text-emerald-700 bg-emerald-50 border-emerald-200",
       "text-amber-700 bg-amber-50 border-amber-200",
       "text-blue-700 bg-blue-50 border-blue-200",
       "text-red-700 bg-red-50 border-red-200"] ∧
    ["text-emerald-700 bg-emerald-50 border-emerald-200",
     "text-amber-700 bg-amber-50 border-amber-200",
     "text-blue-700 bg-blue-50 border-blue-200",
     "text-red-700 bg-red-50 border-red-200",
     "text-slate-700 bg-slate-50 border-slate-200"].Nodup ∧
    (∀ status : JSValue,
      (getPaymentStatusColor status = "text-slate-700 bg-slate-50 border-slate-200" ↔
        ∀ k ∈ eventKinds, status ≠ .str k) ∧
      ((∀ k ∈ eventKinds, status ≠ .str k) ↔
        getStatusText status = status.or (.str "Unknown"))) := by
  refine ⟨by simp [eventKinds, getPaymentStatusColor, JSValue.isStr], by decide, ?_⟩
  intro status
  rw [not_kind_iff]
  constructor
  · unfold getPaymentStatusColor
    split
    · next h => simp [h]
    · split
      · next h => simp [h]
      · split
        · next h => simp [h]
        · split
          · next h => simp [h]
          · simp_all
  · unfold getStatusText
    split
    · next h => cases status <;> simp_all [JSValue.isStr, JSValue.or, JSValue.truthy]
    · split
      · next h => cases status <;> simp_all [JSValue.isStr, JSValue.or, JSValue.truthy]
      · split
        · next h => cases status <;> simp_all [JSValue.isStr, JSValue.or, JSValue.truthy]
        · split
          · next h => cases status <;> simp_all [JSValue.isStr, JSValue.or, JSValue.truthy]
          · simp_all

/-! ## How a snapshot query settles (C9) -/

theorem failed_message_truthy (status : Nat) (statusText : String) :
    (JSValue.str ("Failed to fetch snapshot: " ++ toString status ++ " " ++ statusText)).truthy
      = true := by
  have h : ("Failed to fetch snapshot: " ++ toString status ++ " " ++ statusText).length ≠ 0 := by
    simp only [String.length_append]
    have h26 : "Failed to fetch snapshot: ".length = 26 := by decide
    omega
  have h2 : "Failed to fetch snapshot: " ++ toString status ++ " " ++ statusText ≠ "" := by
    intro h0
    rw [h0] at h
    exact h rfl
  simp [JSValue.truthy, h2]

/-- A call of `fetchLoanSnapshot` during which no other call of it runs: with
a non-empty loan id and snapshot date, however the request settles (rejected,
OK or not OK, any body or a body that fails to parse), the call completes
normally, `snapshotLoading` is false, and exactly one of `loanSnapshot` and
`snapshotError` is non-null (the one that is set is even truthy, the other is
`null`). -/
theorem fetchLoanSnapshot_settles (rt : Runtime) (res : FetchResult) (st : State)
    (hid : st.loanId ≠ "") (hdate : st.snapshotDate ≠ "") :
    (fetchLoanSnapshot rt res st).1 = .ok () ∧
    (fetchLoanSnapshot rt res st).2.snapshotLoading = false ∧
    (((fetchLoanSnapshot rt res st).2.loanSnapshot ≠ .null ∧
        (fetchLoanSnapshot rt res st).2.loanSnapshot.truthy = true ∧
        (fetchLoanSnapshot rt res st).2.snapshotError = .null) ∨
     ((fetchLoanSnapshot rt res st).2.loanSnapshot = .null ∧
        (fetchLoanSnapshot rt res st).2.snapshotError ≠ .null ∧
        (fetchLoanSnapshot rt res st).2.snapshotError.truthy = true)) := by
  cases res with
  | rejects e =>
    simp [fetchLoanSnapshot, hid, hdate, Eff.tryFinally, Eff.tryCatch, awaitFetch, Eff.set,
      Eff.ret, Eff.lift, bind, Eff.andThen, JSValue.truthy]
  | resolves r =>
    obtain ⟨ok, status, statusText, json⟩ := r
    cases ok with
    | true =>
      cases json with
      | error e =>
        simp [fetchLoanSnapshot, hid, hdate, Eff.tryFinally, Eff.tryCatch, awaitFetch, Eff.set,
          Eff.ret, Eff.lift, bind, Eff.andThen, JSValue.truthy]
      | ok data =>
        cases data with
        | arr items =>
          cases items with
          | nil =>
            simp [fetchLoanSnapshot, hid, hdate, Eff.tryFinally, Eff.tryCatch, awaitFetch,
              Eff.set, Eff.ret, Eff.lift, bind, Eff.andThen, snapshotOk, JSValue.truthy,
              JSValue.isArray]
          | cons p rest =>
            cases hnorm : normalizeSnapshot rt st.snapshotDate p with
            | error e =>
              simp [fetchLoanSnapshot, hid, hdate, Eff.tryFinally, Eff.tryCatch, awaitFetch,
                Eff.set, Eff.ret, Eff.lift, bind, Eff.andThen, snapshotOk, JSValue.truthy,
                hnorm]
            | ok v =>
              have hv := normalizeSnapshot_truthy rt _ p v hnorm
              simp [fetchLoanSnapshot, hid, hdate, Eff.tryFinally, Eff.tryCatch, awaitFetch,
                Eff.set, Eff.ret, Eff.lift, bind, Eff.andThen, snapshotOk, hnorm, hv,
                truthy_ne_null hv]
        | undefined =>
          simp [fetchLoanSnapshot, hid, hdate, Eff.tryFinally, Eff.tryCatch, awaitFetch,
            Eff.set, Eff.ret, Eff.lift, bind, Eff.andThen, snapshotOk, JSValue.truthy,
            JSValue.isArray]
        | null =>
          simp [fetchLoanSnapshot, hid, hdate, Eff.tryFinally, Eff.tryCatch, awaitFetch,
            Eff.set, Eff.ret, Eff.lift, bind, Eff.andThen, snapshotOk, JSValue.truthy,
            JSValue.isArray]
        | obj props =>
          simp [fetchLoanSnapshot, hid, hdate, Eff.tryFinally, Eff.tryCatch, awaitFetch,
            Eff.set, Eff.ret, Eff.lift, bind, Eff.andThen, snapshotOk, JSValue.truthy,
            JSValue.isArray]
        | bool b =>
          cases b <;>
          simp [fetchLoanSnapshot, hid, hdate, Eff.tryFinally, Eff.tryCatch, awaitFetch,
            Eff.set, Eff.ret, Eff.lift, bind, Eff.andThen, snapshotOk, JSValue.truthy,
            JSValue.isArray]
        | num q =>
          by_cases hq : q = 0 <;>
          simp [fetchLoanSnapshot, hid, hdate, Eff.tryFinally, Eff.tryCatch, awaitFetch,
            Eff.set, Eff.ret, Eff.lift, bind, Eff.andThen, snapshotOk, JSValue.truthy,
            JSValue.isArray, hq]
        | str s =>
          by_cases hs : s = "" <;>
          simp [fetchLoanSnapshot, hid, hdate, Eff.tryFinally, Eff.tryCatch, awaitFetch,
            Eff.set, Eff.ret, Eff.lift, bind, Eff.andThen, snapshotOk, JSValue.truthy,
            JSValue.isArray, hs]
    | false =>
      have hfb := failed_message_truthy status statusText
      cases hdet : getProp (match json with | .ok v => v | .error _ => .obj []) "detail" with
      | error e =>
        simp [fetchLoanSnapshot, hid, hdate, Eff.tryFinally, Eff.tryCatch, awaitFetch,
          Eff.set, Eff.ret, Eff.lift, bind, Eff.andThen, snapshotNotOk, hdet, JSValue.truthy]
      | ok detail =>
        have ht := or_truthy detail hfb
        simp [fetchLoanSnapshot, hid, hdate, Eff.tryFinally, Eff.tryCatch, awaitFetch,
          Eff.set, Eff.ret, Eff.lift, bind, Eff.andThen, snapshotNotOk, hdet, ht,
          truthy_ne_null ht]

/-- Witness of `fetchLoanSnapshot_settles`: an OK response whose body is an
array with first element `null`. -/
theorem fetchLoanSnapshot_settles_witness :
    (fetchLoanSnapshot exampleRuntime (okResponse (.arr [.null])) exampleState).1 = .ok () ∧
    (fetchLoanSnapshot exampleRuntime (okResponse (.arr [.null])) exampleState).2.snapshotLoading
      = false :=
  ⟨(fetchLoanSnapshot_settles exampleRuntime (okResponse (.arr [.null])) exampleState
      (by decide) (by decide)).1,
   (fetchLoanSnapshot_settles exampleRuntime (okResponse (.arr [.null])) exampleState
      (by decide) (by decide)).2.1⟩

/-- The handler is its first part followed by its second part. -/
theorem fetchLoanSnapshot_eq_start_resume (rt : Runtime) (res : FetchResult) (st : State) :
    fetchLoanSnapshot rt res st =
      (do
        let call ← fetchLoanSnapshotStart
        resumeSnapshotCall rt call res : Eff Unit) st := by
  by_cases h : st.loanId = "" ∨ st.snapshotDate = ""
  · simp [fetchLoanSnapshot, fetchLoanSnapshotStart, resumeSnapshotCall, h, Eff.set, Eff.ret,
      bind, Eff.andThen]
  · simp only [fetchLoanSnapshot, fetchLoanSnapshotStart, resumeSnapshotCall,
      fetchLoanSnapshotResume, h, if_false, Eff.set, Eff.ret, bind, Eff.andThen]

/-- C9, on the code: the button Get Snapshot is disabled while a call is
pending, but Enter in an input still starts a second call.  For loan L1 the
first call is started, the loan id is changed to L9 and Enter is pressed; the
first response is OK with the snapshot `snapshotNoPrincipal`, the second is
the answer 404.  Both calls complete normally with `snapshotLoading` false,
and when the second completes `loanSnapshot` holds the snapshot of L1 and
`snapshotError` holds the message of the 404: both are non-null. -/
theorem overlapping_snapshot_calls_leave_both :
    getSnapshotDisabled (fetchLoanSnapshotStart exampleState).2 = true ∧
    overlappingSnapshotCalls exampleRuntime "L9" (okResponse snapshotNoPrincipal)
        notFoundResponse exampleState =
      (.ok (), { exampleState with
        loanId := "L9", snapshotLoading := false,
        loanSnapshot := snapshotNoPrincipal, snapshotError := .str "Loan not found" }) ∧
    (overlappingSnapshotCalls exampleRuntime "L9" (okResponse snapshotNoPrincipal)
        notFoundResponse exampleState).2.loanSnapshot ≠ .null ∧
    (overlappingSnapshotCalls exampleRuntime "L9" (okResponse snapshotNoPrincipal)
        notFoundResponse exampleState).2.snapshotError ≠ .null := by
  have hrun : overlappingSnapshotCalls exampleRuntime "L9" (okResponse snapshotNoPrincipal)
        notFoundResponse exampleState =
      (.ok (), { exampleState with
        loanId := "L9", snapshotLoading := false,
        loanSnapshot := snapshotNoPrincipal, snapshotError := .str "Loan not found" }) := by
    simp [overlappingSnapshotCalls, fetchLoanSnapshotStart, resumeSnapshotCall,
      fetchLoanSnapshotResume, exampleState, State.initial, okResponse, notFoundResponse,
      snapshotNoPrincipal, snapshotOk, snapshotNotOk, Eff.tryFinally, Eff.tryCatch, awaitFetch,
      Eff.set, Eff.ret, Eff.lift, bind, Eff.andThen, getProp, JSValue.read, JSValue.lookup,
      JSValue.or, JSValue.truthy, JSValue.isArray]
  refine ⟨?_, hrun, ?_, ?_⟩
  · simp [getSnapshotDisabled, fetchLoanSnapshotStart, exampleState, State.initial, Eff.set,
      Eff.ret, bind, Eff.andThen]
  · rw [hrun]; simp [snapshotNoPrincipal]
  · rw [hrun]; simp

/-! ## The badge of a recent payment (C8) -/

/-- C8, as stated, fails: the record `shortPaymentRecord` carries
`payment_status = ShortPaymentEvent`; the payments table shows it as Short
Payment with the amber classes, the snapshot view shows Unknown with the slate
classes, because it reads the field `status`. -/
theorem snapshot_badge_ignores_payment_status :
    getProp shortPaymentRecord "payment_status" = .ok (.str "ShortPaymentEvent") ∧
    paymentStatusCell shortPaymentRecord =
      .ok { color := "text-amber-700 bg-amber-50 border-amber-200",
            label := .str "Short Payment" } ∧
    recentPaymentBadge shortPaymentRecord =
      .ok { color := "text-slate-700 bg-slate-50 border-slate-200", label := .str "Unknown" } ∧
    recentPaymentBadge shortPaymentRecord ≠ paymentStatusCell shortPaymentRecord := by
  simp [shortPaymentRecord, paymentStatusCell, recentPaymentBadge, getProp_obj, lookup_cons,
    JSValue.lookup, getPaymentStatusColor, getStatusText, JSValue.isStr, JSValue.or,
    JSValue.truthy, bind, Except.bind, pure, Except.pure]

/-- C8, amended: for every record of a snapshot's `recent_payments`, the badge
of the snapshot view shows `getStatusText` and `getPaymentStatusColor` applied
to the record's field `status`; when the record's `payment_status` is that same
value, this is the label and colour class the payments table shows for it. -/
theorem recent_badge_reads_status (rt : Runtime) (payment status : JSValue)
    (hst : getProp payment "status" = .ok status) :
    recentPaymentBadge payment =
      .ok { color := getPaymentStatusColor status, label := getStatusText status } ∧
    (∃ row, recentPaymentRow rt payment = .ok row ∧
      row.badge = { color := getPaymentStatusColor status, label := getStatusText status }) ∧
    (getProp payment "payment_status" = .ok status →
      paymentStatusCell payment = recentPaymentBadge payment) := by
  obtain ⟨hu, hn⟩ := not_nullish_of_getProp hst
  have hb : recentPaymentBadge payment =
      .ok { color := getPaymentStatusColor status, label := getStatusText status } := by
    simp [recentPaymentBadge, hst, bind, Except.bind, pure, Except.pure]
  refine ⟨hb, ?_, ?_⟩
  · simp [recentPaymentRow, hb, getProp_eq_read hu hn, bind, Except.bind, pure, Except.pure]
  · intro hps
    simp [paymentStatusCell, hps, hb, bind, Except.bind, pure, Except.pure]

/-- Witness of `recent_badge_reads_status`: a record whose `status` is OverPaymentEvent. -/
theorem recent_badge_reads_status_witness :
    recentPaymentBadge (.obj [("amount", .num 2500), ("status", .str "OverPaymentEvent")]) =
      .ok { color := getPaymentStatusColor (.str "OverPaymentEvent"),
            label := getStatusText (.str "OverPaymentEvent") } :=
  (recent_badge_reads_status exampleRuntime
    (.obj [("amount", .num 2500), ("status", .str "OverPaymentEvent")])
    (.str "OverPaymentEvent") rfl).1

/-! ## The upload result panel (C10) -/

theorem mapExcept_errorEntry (items : List JSValue)
    (h : ∀ e ∈ items, e ≠ .null ∧ e ≠ .undefined) :
    mapExcept errorEntry items = .ok (items.map entryOf) := by
  induction items with
  | nil => rfl
  | cons e rest ih =>
    have he := h e (List.mem_cons_self _ _)
    have hrest := ih (fun x hx => h x (List.mem_cons_of_mem _ hx))
    have hentry : errorEntry e = .ok (entryOf e) := by
      simp [errorEntry, getProp_eq_read he.2 he.1, entryOf, bind, Except.bind, pure, Except.pure]
    simp [mapExcept, hentry, hrest]

theorem errorsBox_arr (rt : Runtime) (items : List JSValue)
    (h : ∀ e ∈ items, e ≠ .null ∧ e ≠ .undefined) :
    errorsBox rt (.arr items) =
      .ok (if items.isEmpty then none
           else some { count := items.length, entries := (items.take 10).map entryOf,
                       more := if items.length > 10 then some (items.length - 10) else none }) := by
  have htake : ∀ e ∈ items.take 10, e ≠ .null ∧ e ≠ .undefined :=
    fun e he => h e (List.mem_of_mem_take he)
  cases items with
  | nil => simp [errorsBox, optLength, getProp, JSValue.read, JSValue.gt, pure, Except.pure]
  | cons e rest =>
    have hpos : (0 : Rat) < ((e :: rest).length : Nat) := by
      have : 0 < (e :: rest).length := Nat.succ_pos _
      exact_mod_cast this
    simp only [errorsBox, optLength, getProp, JSValue.read, JSValue.gt, if_true, hpos,
      decide_True, Bool.not_true, Bool.false_eq_true, if_false, mapExcept_errorEntry _ htake,
      bind, Except.bind, pure, Except.pure, List.isEmpty_cons]

/-- C10: for every upload result whose `validation.errors` is a list (of
entries that are not `null`), whatever its `status`, the result panel is
rendered and its box Validation Errors is present exactly when the list is
non-empty, with the same content for every status; when `status` is success the
panel has the success styling and the success icon. -/
theorem partial_failure_shown_as_success (rt : Runtime)
    (u status validation warnings : JSValue) (items : List JSValue) (wv : Option WarningsBox)
    (hs : getProp u "status" = .ok status) (hv : getProp u "validation" = .ok validation)
    (he : getProp validation "errors" = .ok (.arr items))
    (hitems : ∀ e ∈ items, e ≠ .null ∧ e ≠ .undefined)
    (hwp : getProp validation "warnings" = .ok warnings)
    (hw : warningsBox rt warnings = .ok wv) :
    ∃ panel view, uploadResultPanel rt u = .ok (some panel) ∧ panel.validation = some view ∧
      view.errors =
        (if items.isEmpty then none
         else some { count := items.length, entries := (items.take 10).map entryOf,
                     more := if items.length > 10 then some (items.length - 10) else none }) ∧
      (status = .str "success" →
        panel.containerClass = "mt-8 p-6 rounded-xl border-2 bg-emerald-50 border-emerald-200" ∧
        panel.icon = .checkCircle ∧
        panel.headlineClass = "font-semibold text-lg text-emerald-800") := by
  obtain ⟨hvu, hvn⟩ := not_nullish_of_getProp he
  obtain ⟨huu, hun⟩ := not_nullish_of_getProp hs
  have re := read_of_getProp he
  have rw_ := read_of_getProp hwp
  have rv := read_of_getProp hv
  have rs := read_of_getProp hs
  have hvt : validation.truthy = true :=
    (truthy_of_read (k := "errors") (by decide) (by rw [re]; simp)).1
  have hut : u.truthy = true :=
    (truthy_of_read (k := "validation") (by decide)
      (by rw [rv]; intro h0; rw [h0] at hvt; simp [JSValue.truthy] at hvt)).1
  have hview : validationView rt u = .ok (some {
      rowsProcessed := (JSValue.read validation "processed_rows").or (.num 0),
      validRows := (JSValue.read validation "valid_rows").or (.num 0),
      paymentsCreated := (JSValue.read u "payments_processed").or (.num 0),
      errors :=
        (if items.isEmpty then none
         else some { count := items.length, entries := (items.take 10).map entryOf,
                     more := if items.length > 10 then some (items.length - 10) else none }),
      warnings := wv }) := by
    simp only [validationView, hv, bind, Except.bind, hvt, Bool.not_true, Bool.false_eq_true,
      if_false, getProp_eq_read hvu hvn, getProp_eq_read huu hun, re, rw_,
      errorsBox_arr rt items hitems, hw, pure, Except.pure]
  have hpanel : uploadResultPanel rt u = .ok (some {
      containerClass :=
        "mt-8 p-6 rounded-xl border-2 " ++
          (if status.isStr "success" then "bg-emerald-50 border-emerald-200"
           else "bg-red-50 border-red-200"),
      icon := if status.isStr "success" then .checkCircle else .xCircle,
      headlineClass :=
        "font-semibold text-lg " ++
          (if status.isStr "success" then "text-emerald-800" else "text-red-800"),
      headline :=
        (JSValue.read u "message").or
          (if status.isStr "success" then .str "Upload Successful" else .str "Upload Failed"),
      validation := some {
        rowsProcessed := (JSValue.read validation "processed_rows").or (.num 0),
        validRows := (JSValue.read validation "valid_rows").or (.num 0),
        paymentsCreated := (JSValue.read u "payments_processed").or (.num 0),
        errors :=
          (if items.isEmpty then none
           else some { count := items.length, entries := (items.take 10).map entryOf,
                       more := if items.length > 10 then some (items.length - 10) else none }),
        warnings := wv } }) := by
    simp only [uploadResultPanel, hut, Bool.not_true, Bool.false_eq_true, if_false,
      getProp_eq_read huu hun, hview, bind, Except.bind, pure, Except.pure, rs]
  refine ⟨_, _, hpanel, rfl, rfl, ?_⟩
  intro hsucc
  subst hsucc
  exact ⟨rfl, rfl, rfl⟩

/-- Witness of `partial_failure_shown_as_success`: the upload result
`partialUpload`, status success with three validation errors. -/
theorem partial_failure_shown_as_success_witness :
    ∃ panel view, uploadResultPanel exampleRuntime partialUpload = .ok (some panel) ∧
      panel.validation = some view ∧
      view.errors =
        some { count := 3,
               entries := [
                 { row := .num 2, field := .str "amount", message := .str "Invalid amount" },
                 { row := .num 5, field := .str "date", message := .str "Invalid date" },
                 { row := .num 9, field := .str "loan_id", message := .str "Missing field" }],
               more := none } ∧
      panel.icon = .checkCircle := by
  obtain ⟨panel, view, h1, h2, h3, h4⟩ :=
    partial_failure_shown_as_success exampleRuntime partialUpload (.str "success")
      (.obj [("processed_rows", .num 10), ("valid_rows", .num 7),
          ("errors", .arr [
            .obj [("row", .num 2), ("field", .str "amount"), ("message", .str "Invalid amount")],
            .obj [("row", .num 5), ("field", .str "date"), ("message", .str "Invalid date")],
            .obj [("row", .num 9), ("field", .str "loan_id"), ("message", .str "Missing field")]])])
      .undefined
      [.obj [("row", .num 2), ("field", .str "amount"), ("message", .str "Invalid amount")],
       .obj [("row", .num 5), ("field", .str "date"), ("message", .str "Invalid date")],
       .obj [("row", .num 9), ("field", .str "loan_id"), ("message", .str "Missing field")]]
      none rfl rfl rfl (by simp) rfl rfl
  exact ⟨panel, view, h1, h2, h3, (h4 rfl).2.1⟩

/-! ## The status badge of an upload log (C11) -/

/-- C11: for every upload log, the status badge reads Success with the emerald
classes if and only if `validation_status` is exactly the string success, and
reads Failed with the red classes for every other value, in particular for
the string failed. -/
theorem logStatusCell_success_iff (log : JSValue) (hu : log ≠ .undefined) (hn : log ≠ .null) :
    ∃ badge, logStatusCell log = .ok badge ∧
      (badge.label = .str "Success" ↔ getProp log "validation_status" = .ok (.str "success")) ∧
      (badge.color = "text-emerald-700 bg-emerald-50 border-emerald-200" ↔
        getProp log "validation_status" = .ok (.str "success")) ∧
      (getProp log "validation_status" ≠ .ok (.str "success") →
        badge.label = .str "Failed" ∧ badge.color = "text-red-700 bg-red-50 border-red-200") ∧
      (getProp log "validation_status" = .ok (.str "failed") →
        badge.label = .str "Failed" ∧ badge.color = "text-red-700 bg-red-50 border-red-200") := by
  have hcell : logStatusCell log = .ok {
      color :=
        if (JSValue.read log "validation_status").isStr "success"
        then "text-emerald-700 bg-emerald-50 border-emerald-200"
        else "text-red-700 bg-red-50 border-red-200",
      label :=
        if (JSValue.read log "validation_status").isStr "success" then .str "Success"
        else .str "Failed" } := by
    simp only [logStatusCell, getProp_eq_read hu hn, bind, Except.bind, pure, Except.pure]
  have hiff : (JSValue.read log "validation_status").isStr "success" = true ↔
      JSValue.read log "validation_status" = .str "success" := by
    cases JSValue.read log "validation_status" <;> simp [JSValue.isStr]
  refine ⟨_, hcell, ?_⟩
  simp only [getProp_eq_read hu hn, Except.ok.injEq, ne_eq]
  by_cases h : (JSValue.read log "validation_status").isStr "success" = true
  · have h2 := hiff.1 h
    simp [h, h2, JSValue.isStr]
  · have h2 : ¬ JSValue.read log "validation_status" = .str "success" := fun h3 => h (hiff.2 h3)
    simp [h, h2]

/-- Witness of `logStatusCell_success_iff`: a log whose status is failed. -/
theorem logStatusCell_success_iff_witness :
    ∃ badge, logStatusCell (.obj [("file_name", .str "jan.csv"),
        ("validation_status", .str "failed")]) = .ok badge ∧ badge.label = .str "Failed" := by
  obtain ⟨badge, h1, -, -, -, h5⟩ :=
    logStatusCell_success_iff
      (.obj [("file_name", .str "jan.csv"), ("validation_status", .str "failed")])
      (by simp) (by simp)
  exact ⟨badge, h1, (h5 rfl).1⟩

/-! ## The list of validation errors (C12) -/

/-- C12: for every list of n validation errors (records, none of them `null`),
the box Validation Errors is rendered when n is positive; its entries are the
first min(n, 10) errors in their original order, the notice of further errors
is present if and only if n exceeds 10 and then counts n - 10, the header
shows n, and the number of entries plus the count of the notice is n.  For
the empty list no box is rendered, so nothing is dropped either. -/
theorem errors_shown_in_source_order (rt : Runtime) (items : List JSValue)
    (hitems : ∀ e ∈ items, e ≠ .null ∧ e ≠ .undefined) :
    (items = [] → errorsBox rt (.arr items) = .ok none) ∧
    (items ≠ [] →
      ∃ box, errorsBox rt (.arr items) = .ok (some box) ∧
        box.entries = (items.take 10).map entryOf ∧
        box.entries.length = min items.length 10 ∧
        (∀ k, box.more = some k ↔ (10 < items.length ∧ k = items.length - 10)) ∧
        box.count = items.length ∧
        box.entries.length + box.more.getD 0 = items.length) := by
  rw [errorsBox_arr rt items hitems]
  constructor
  · intro h
    simp [h]
  · intro h
    have hne : items.isEmpty = false := by
      cases items with
      | nil => exact absurd rfl h
      | cons a l => rfl
    simp only [hne, Bool.false_eq_true, if_false]
    refine ⟨{ count := items.length, entries := (items.take 10).map entryOf,
              more := if items.length > 10 then some (items.length - 10) else none },
      rfl, rfl, ?_, ?_, rfl, ?_⟩
    · simp [List.length_take, Nat.min_comm]
    · intro k
      by_cases hlen : items.length > 10
      · simp [hlen, eq_comm]
      · simp [hlen]
    · by_cases hlen : items.length > 10
      · simp only [hlen, if_true, Option.getD_some, List.length_map, List.length_take]
        omega
      · simp only [hlen, if_false, Option.getD_none, List.length_map, List.length_take]
        omega

/-- Witness of `errors_shown_in_source_order`: the three errors of `partialUpload`. -/
theorem errors_shown_in_source_order_witness :
    ∃ box, errorsBox exampleRuntime (.arr [
        .obj [("row", .num 2), ("field", .str "amount"), ("message", .str "Invalid amount")],
        .obj [("row", .num 5), ("field", .str "date"), ("message", .str "Invalid date")],
        .obj [("row", .num 9), ("field", .str "loan_id"), ("message", .str "Missing field")]])
        = .ok (some box) ∧ box.count = 3 := by
  obtain ⟨box, h1, -, -, -, h5, -⟩ :=
    (errors_shown_in_source_order exampleRuntime [
        .obj [("row", .num 2), ("field", .str "amount"), ("message", .str "Invalid amount")],
        .obj [("row", .num 5), ("field", .str "date"), ("message", .str "Invalid date")],
        .obj [("row", .num 9), ("field", .str "loan_id"), ("message", .str "Missing field")]]
      (by simp)).2 (by simp)
  exact ⟨box, h1, h5⟩

/-! ## fetchPayments and handleUpload: their paths -/

/-- An OK response: `fetchPayments` stores the parsed body. -/
theorem fetchPayments_ok (st : State) (r : Response) (data : JSValue)
    (hok : r.ok = true) (hjson : r.json = .ok data) :
    fetchPayments (.resolves r) st = (.ok (), { st with loading := false, payments := data }) := by
  simp [fetchPayments, hok, hjson, Eff.tryFinally, Eff.tryCatch, awaitFetch, Eff.set, Eff.ret,
    Eff.lift, bind, Eff.andThen]

/-- A parsed upload response that is not a success, or any parsed response
while the payments tab is not the active one: only `uploadResult` and
`uploading` are written. -/
theorem handleUpload_parsed (rt : Runtime) (st : State) (r : Response) (pres : FetchResult)
    (data status : JSValue) (f : FileInfo) (hfile : st.file = some f)
    (hjson : r.json = .ok data) (hstatus : getProp data "status" = .ok status)
    (hskip : status.isStr "success" = false ∨ st.activeTab ≠ "payments") :
    handleUpload rt (.resolves r) pres st =
      (.ok (), { st with uploading := false, uploadResult := data }) := by
  rcases hskip with h | h <;>
    simp [handleUpload, hfile, hjson, hstatus, h, Eff.tryFinally, Eff.tryCatch, awaitFetch,
      Eff.set, Eff.ret, Eff.lift, bind, Eff.andThen]

/-! ## The refresh after a successful upload (C13) -/

/-- C13, on the code: in every state in which the button Upload File is on
the page, an upload whose response body has status success stores the body and
resets `uploading`, and nothing else: `payments` and `loading` are left as
they were whatever a request for the payments would have answered, so
`fetchPayments` is not invoked. -/
theorem handleUpload_skips_refresh (rt : Runtime) (st : State) (r : Response)
    (pres : FetchResult) (data : JSValue) (hshown : uploadButtonShown st = true)
    (hjson : r.json = .ok data) (hstatus : getProp data "status" = .ok (.str "success")) :
    handleUpload rt (.resolves r) pres st =
      (.ok (), { st with uploading := false, uploadResult := data }) ∧
    (handleUpload rt (.resolves r) pres st).2.payments = st.payments ∧
    (handleUpload rt (.resolves r) pres st).2.loading = st.loading := by
  simp only [uploadButtonShown, Bool.and_eq_true, decide_eq_true_eq, Option.isSome_iff_exists]
    at hshown
  obtain ⟨htab, f, hfile⟩ := hshown
  have h := handleUpload_parsed rt st r pres data (.str "success") f hfile hjson hstatus
    (Or.inr (by rw [htab]; decide))
  rw [h]
  exact ⟨rfl, rfl, rfl⟩

/-- Witness of `handleUpload_skips_refresh`: on the upload tab with a file
chosen, the successful upload `partialUpload` leaves `payments` empty although
the payments request would have answered with a payment, which `fetchPayments`
itself stores. -/
theorem handleUpload_skips_refresh_witness :
    (handleUpload exampleRuntime (okResponse partialUpload)
      (okResponse (.arr [shortPaymentRecord])) uploadState).2.payments = .arr [] ∧
    (fetchPayments (okResponse (.arr [shortPaymentRecord])) uploadState).2.payments
      = .arr [shortPaymentRecord] :=
  ⟨(handleUpload_skips_refresh exampleRuntime uploadState
      { ok := true, status := 200, statusText := "OK", json := .ok partialUpload }
      (okResponse (.arr [shortPaymentRecord])) partialUpload (by decide) rfl rfl).2.1,
   by rw [okResponse, fetchPayments_ok uploadState _ (.arr [shortPaymentRecord]) rfl rfl]⟩

/-! ## The bound on the payments list (C14) -/

theorem paymentRow_ok (rt : Runtime) (payment : JSValue) (index : Nat)
    (hu : payment ≠ .undefined) (hn : payment ≠ .null) :
    ∃ row, paymentRow rt payment index = .ok row := by
  simp [paymentRow, paymentStatusCell, getProp_eq_read hu hn, bind, Except.bind, pure,
    Except.pure]

theorem mapIdxExcept_paymentRow (rt : Runtime) (items : List JSValue)
    (h : ∀ p ∈ items, p ≠ .null ∧ p ≠ .undefined) (start : Nat) :
    ∃ rows, mapIdxExcept (paymentRow rt) items start = .ok rows ∧
      rows.length = items.length := by
  induction items generalizing start with
  | nil => exact ⟨[], rfl, rfl⟩
  | cons p rest ih =>
    have hp := h p (List.mem_cons_self _ _)
    obtain ⟨row, hrow⟩ := paymentRow_ok rt p start hp.2 hp.1
    obtain ⟨rows, hrows, hlen⟩ := ih (fun x hx => h x (List.mem_cons_of_mem _ hx)) (start + 1)
    exact ⟨row :: rows, by simp [mapIdxExcept, hrow, hrows], by simp [hlen]⟩

/-- The payments tab once `payments` holds a list of records and nothing is loading. -/
theorem paymentsView_arr (rt : Runtime) (st : State) (items : List JSValue)
    (hload : st.loading = false) (hpay : st.payments = .arr items)
    (h : ∀ p ∈ items, p ≠ .null ∧ p ≠ .undefined) :
    (items = [] → paymentsView rt st = .ok .noPayments) ∧
    (items ≠ [] → ∃ rows, paymentsView rt st = .ok (.table rows (decide (50 ≤ items.length))) ∧
      rows.length = items.length) := by
  constructor
  · intro he
    simp [paymentsView, hload, hpay, he, getProp, JSValue.read, JSValue.isNum, bind,
      Except.bind, pure, Except.pure]
  · intro hne
    obtain ⟨rows, hrows, hlen⟩ := mapIdxExcept_paymentRow rt items h 0
    have hpos : ((items.length : Nat) : Rat) ≠ 0 := by
      have : items.length ≠ 0 := fun h0 => hne (List.length_eq_zero.1 h0)
      exact_mod_cast this
    have hge : decide ((50 : Rat) ≤ ((items.length : Nat) : Rat)) = decide (50 ≤ items.length) := by
      congr 1
      exact propext (by exact_mod_cast Iff.rfl)
    refine ⟨rows, ?_, hlen⟩
    simp only [paymentsView, hload, hpay, getProp, JSValue.read, JSValue.isNum, JSValue.ge,
      bind, Except.bind, pure, Except.pure, hrows, hge, if_true, hpos, decide_False,
      Bool.false_eq_true, if_false]

/-- C14, as stated, fails: an OK response with 51 payments is stored whole, the
table then has 51 rows, and the footer about the latest 50 payments is
displayed. -/
theorem fifty_one_payments_shown :
    (fetchPayments (okResponse fiftyOnePayments) State.initial).2.payments
      = .arr (List.replicate 51 shortPaymentRecord) ∧
    (List.replicate 51 shortPaymentRecord).length = 51 ∧
    ∃ rows,
      paymentsView exampleRuntime (fetchPayments (okResponse fiftyOnePayments) State.initial).2
        = .ok (.table rows true) ∧
      rows.length = 51 := by
  have hst : fetchPayments (okResponse fiftyOnePayments) State.initial =
      (.ok (), { State.initial with loading := false, payments := fiftyOnePayments }) := by
    rw [okResponse, fetchPayments_ok State.initial _ fiftyOnePayments rfl rfl]
  have hitems : ∀ p ∈ List.replicate 51 shortPaymentRecord, p ≠ .null ∧ p ≠ .undefined := by
    intro p hp
    rw [List.eq_of_mem_replicate hp]
    simp [shortPaymentRecord]
  obtain ⟨rows, hrows, hlen⟩ :=
    (paymentsView_arr exampleRuntime
      { State.initial with loading := false, payments := fiftyOnePayments }
      (List.replicate 51 shortPaymentRecord) rfl rfl hitems).2 (by simp)
  rw [hst]
  refine ⟨rfl, by simp, rows, ?_, ?_⟩
  · rw [hrows]; simp
  · rw [hlen]; simp

/-- C14, amended: after a successful `fetchPayments` the stored payments list
is exactly the parsed body, whatever its length; the table then renders one row
per stored payment, and the footer about the latest 50 payments is displayed
exactly when the stored list has at least 50 entries. -/
theorem payments_stored_as_received (rt : Runtime) (st : State) (r : Response)
    (items : List JSValue) (hok : r.ok = true) (hjson : r.json = .ok (.arr items))
    (hitems : ∀ p ∈ items, p ≠ .null ∧ p ≠ .undefined) :
    (fetchPayments (.resolves r) st).2.payments = .arr items ∧
    (items = [] → paymentsView rt (fetchPayments (.resolves r) st).2 = .ok .noPayments) ∧
    (items ≠ [] → ∃ rows,
      paymentsView rt (fetchPayments (.resolves r) st).2
        = .ok (.table rows (decide (50 ≤ items.length))) ∧
      rows.length = items.length) := by
  rw [fetchPayments_ok st r (.arr items) hok hjson]
  exact ⟨rfl, paymentsView_arr rt _ items rfl rfl hitems⟩

/-- Witness of `payments_stored_as_received`: a body with one payment. -/
theorem payments_stored_as_received_witness :
    (fetchPayments (okResponse (.arr [shortPaymentRecord])) State.initial).2.payments
      = .arr [shortPaymentRecord] :=
  (payments_stored_as_received exampleRuntime State.initial
    { ok := true, status := 200, statusText := "OK", json := .ok (.arr [shortPaymentRecord]) }
    [shortPaymentRecord] rfl rfl (by simp [shortPaymentRecord])).1

/-! ## The stored snapshot depends on the first element only (C17) -/

/-- The array branch when the first element is `null` or `undefined`: the
property read throws and the `catch` clause reports the network error. -/
theorem fetchLoanSnapshot_array_nullish (rt : Runtime) (st : State) (r : Response)
    (p : JSValue) (rest : List JSValue) (hid : st.loanId ≠ "") (hdate : st.snapshotDate ≠ "")
    (hok : r.ok = true) (hjson : r.json = .ok (.arr (p :: rest)))
    (hp : p = .undefined ∨ p = .null) :
    fetchLoanSnapshot rt (.resolves r) st =
      (.ok (), { st with
        snapshotLoading := false, loanSnapshot := .null,
        snapshotError := .str "Network error: Failed to fetch loan snapshot" }) := by
  rcases hp with h | h <;> subst h <;>
    simp [fetchLoanSnapshot, hid, hdate, hok, hjson, Eff.tryFinally, Eff.tryCatch, awaitFetch,
      Eff.set, Eff.ret, Eff.lift, snapshotOk, bind, Eff.andThen, normalizeSnapshot, getProp,
      Except.bind]

/-- C17: two OK array responses with the same first element, requested for the
same snapshot date, leave identical stored snapshots (and identical snapshot
errors), whatever their remaining elements. -/
theorem stored_snapshot_from_first_element (rt : Runtime) (st1 st2 : State)
    (r1 r2 : Response) (p : JSValue) (rest1 rest2 : List JSValue)
    (hid1 : st1.loanId ≠ "") (hid2 : st2.loanId ≠ "") (hdate : st1.snapshotDate ≠ "")
    (hsame : st1.snapshotDate = st2.snapshotDate)
    (hok1 : r1.ok = true) (hok2 : r2.ok = true)
    (hjson1 : r1.json = .ok (.arr (p :: rest1))) (hjson2 : r2.json = .ok (.arr (p :: rest2))) :
    storedSnapshot rt (.resolves r1) st1 = storedSnapshot rt (.resolves r2) st2 ∧
    (fetchLoanSnapshot rt (.resolves r1) st1).2.snapshotError =
      (fetchLoanSnapshot rt (.resolves r2) st2).2.snapshotError := by
  have hdate2 : st2.snapshotDate ≠ "" := hsame ▸ hdate
  by_cases hp : p = .undefined ∨ p = .null
  · rw [storedSnapshot, storedSnapshot,
      fetchLoanSnapshot_array_nullish rt st1 r1 p rest1 hid1 hdate hok1 hjson1 hp,
      fetchLoanSnapshot_array_nullish rt st2 r2 p rest2 hid2 hdate2 hok2 hjson2 hp]
    exact ⟨rfl, rfl⟩
  · have hu : p ≠ .undefined := fun h => hp (Or.inl h)
    have hn : p ≠ .null := fun h => hp (Or.inr h)
    rw [storedSnapshot, storedSnapshot,
      fetchLoanSnapshot_array rt st1 r1 p rest1 hid1 hdate hok1 hjson1 hu hn,
      fetchLoanSnapshot_array rt st2 r2 p rest2 hid2 hdate2 hok2 hjson2 hu hn, hsame]
    exact ⟨rfl, rfl⟩

/-- Witness of `stored_snapshot_from_first_element`: the payload
`snapshotNoPrincipal` alone and followed by `snapshotZeroPrincipal`. -/
theorem stored_snapshot_from_first_element_witness :
    storedSnapshot exampleRuntime (okResponse (.arr [snapshotNoPrincipal])) exampleState =
      storedSnapshot exampleRuntime
        (okResponse (.arr [snapshotNoPrincipal, snapshotZeroPrincipal])) exampleState :=
  (stored_snapshot_from_first_element exampleRuntime exampleState exampleState
    { ok := true, status := 200, statusText := "OK", json := .ok (.arr [snapshotNoPrincipal]) }
    { ok := true, status := 200, statusText := "OK",
      json := .ok (.arr [snapshotNoPrincipal, snapshotZeroPrincipal]) }
    snapshotNoPrincipal [] [snapshotZeroPrincipal]
    (by decide) (by decide) (by decide) rfl rfl rfl rfl rfl).1

/-! ## The shape of the stored snapshot (C18) -/

/-- C18: in the array branch the stored snapshot is the object of the eight
fields `loan_id`, `snapshot_date` (the requested date), `outstanding_balance`
(unchanged), `total_paid` or 0, `payments_made` or 0, `principal_amount` or
24000, `borrower_id` or N/A, `loan_name` or Loan followed by the loan id, for
the first element s; the operator replaces every falsy value, so a
`principal_amount` of 0 becomes 24000; in the single-object branch the payload
is stored unchanged. -/
theorem stored_snapshot_shape (rt : Runtime) (st : State) (r : Response)
    (hid : st.loanId ≠ "") (hdate : st.snapshotDate ≠ "") (hok : r.ok = true) :
    (∀ s rest loan_id outstanding_balance total_paid payments_made principal_amount
        borrower_id loan_name,
      r.json = .ok (.arr (s :: rest)) →
      getProp s "loan_id" = .ok loan_id →
      getProp s "outstanding_balance" = .ok outstanding_balance →
      getProp s "total_paid" = .ok total_paid →
      getProp s "payments_made" = .ok payments_made →
      getProp s "principal_amount" = .ok principal_amount →
      getProp s "borrower_id" = .ok borrower_id →
      getProp s "loan_name" = .ok loan_name →
      storedSnapshot rt (.resolves r) st = .obj [
        ("loan_id", loan_id),
        ("snapshot_date", .str st.snapshotDate),
        ("outstanding_balance", outstanding_balance),
        ("total_paid", if total_paid.truthy then total_paid else .num 0),
        ("payments_made", if payments_made.truthy then payments_made else .num 0),
        ("principal_amount", if principal_amount.truthy then principal_amount else .num 24000),
        ("borrower_id", if borrower_id.truthy then borrower_id else .str "N/A"),
        ("loan_name",
          if loan_name.truthy then loan_name else .str ("Loan " ++ rt.toStr loan_id))]) ∧
    (∀ s rest, r.json = .ok (.arr (s :: rest)) →
      getProp s "principal_amount" = .ok (.num 0) →
      getProp (storedSnapshot rt (.resolves r) st) "principal_amount" = .ok (.num 24000)) ∧
    (∀ data, r.json = .ok data → data.truthy = true → data.isArray = false →
      storedSnapshot rt (.resolves r) st = data) := by
  refine ⟨?_, ?_, ?_⟩
  · intro s rest loan_id outstanding_balance total_paid payments_made principal_amount
      borrower_id loan_name hjson h1 h2 h3 h4 h5 h6 h7
    obtain ⟨hu, hn⟩ := not_nullish_of_getProp h1
    simp only [storedSnapshot, fetchLoanSnapshot_array rt st r s rest hid hdate hok hjson hu hn,
      read_of_getProp h1, read_of_getProp h2, read_of_getProp h3, read_of_getProp h4,
      read_of_getProp h5, read_of_getProp h6, read_of_getProp h7, JSValue.or]
  · intro s rest hjson h5
    obtain ⟨hu, hn⟩ := not_nullish_of_getProp h5
    simp [storedSnapshot, fetchLoanSnapshot_array rt st r s rest hid hdate hok hjson hu hn,
      getProp_obj, lookup_cons, read_of_getProp h5, JSValue.or, JSValue.truthy]
  · intro data hjson ht ha
    simp [storedSnapshot, fetchLoanSnapshot_single rt st r data hid hdate hok hjson ht ha]

/-- Witness of `stored_snapshot_shape`: the payload `snapshotZeroPrincipal`,
whose `principal_amount` is 0, as the only element of an array. -/
theorem stored_snapshot_shape_witness :
    getProp (storedSnapshot exampleRuntime (okResponse (.arr [snapshotZeroPrincipal]))
      exampleState) "principal_amount" = .ok (.num 24000) :=
  (stored_snapshot_shape exampleRuntime exampleState
    { ok := true, status := 200, statusText := "OK",
      json := .ok (.arr [snapshotZeroPrincipal]) }
    (by decide) (by decide) rfl).2.1 snapshotZeroPrincipal [] rfl rfl

/-! ## A snapshot query without its inputs (C19) -/

/-- C19: when `fetchLoanSnapshot` is called with an empty loan id or an empty
snapshot date (the button Get Snapshot is then disabled, but the Enter key
still calls it), the call completes with the same result however a request
would settle, so no response is awaited; `snapshotError` holds the message
asking for both inputs and every other state variable, `loanSnapshot` and
`snapshotLoading` included, is unchanged. -/
theorem fetchLoanSnapshot_missing_input (rt : Runtime) (res : FetchResult) (st : State)
    (h : st.loanId = "" ∨ st.snapshotDate = "") :
    fetchLoanSnapshot rt res st =
      (.ok (), { st with snapshotError := .str "Please enter both loan ID and snapshot date" }) ∧
    (∀ res2, fetchLoanSnapshot rt res2 st = fetchLoanSnapshot rt res st) ∧
    (fetchLoanSnapshot rt res st).2.loanSnapshot = st.loanSnapshot ∧
    (fetchLoanSnapshot rt res st).2.snapshotLoading = st.snapshotLoading ∧
    getSnapshotDisabled st = true ∧
    handleKeyPress rt res "Enter" st = fetchLoanSnapshot rt res st := by
  have heq : ∀ res2, fetchLoanSnapshot rt res2 st =
      (.ok (), { st with snapshotError := .str "Please enter both loan ID and snapshot date" }) := by
    intro res2
    simp [fetchLoanSnapshot, h, Eff.set]
  refine ⟨heq res, fun res2 => by rw [heq res2, heq res], by rw [heq res], by rw [heq res], ?_, ?_⟩
  · rcases h with h | h <;> simp [getSnapshotDisabled, h]
  · simp [handleKeyPress]

/-- Witness of `fetchLoanSnapshot_missing_input`: a snapshot is stored, the
date is cleared, and Enter is pressed; the stored snapshot stays beside the
error. -/
theorem fetchLoanSnapshot_missing_input_witness :
    (fetchLoanSnapshot exampleRuntime (okResponse snapshotOverpaid)
      { exampleState with snapshotDate := "", loanSnapshot := snapshotNoPrincipal }).2.loanSnapshot
      = snapshotNoPrincipal ∧
    (fetchLoanSnapshot exampleRuntime (okResponse snapshotOverpaid)
      { exampleState with snapshotDate := "", loanSnapshot := snapshotNoPrincipal }).2.snapshotError
      = .str "Please enter both loan ID and snapshot date" := by
  have h := fetchLoanSnapshot_missing_input exampleRuntime (okResponse snapshotOverpaid)
    { exampleState with snapshotDate := "", loanSnapshot := snapshotNoPrincipal } (Or.inr rfl)
  exact ⟨h.2.2.1, by rw [h.1]⟩

/-! ## The failure paths of handleUpload (C20) -/

/-- C20: without a selected file `handleUpload` changes no state and completes
with the same result however the requests would settle; with a file, if the
request rejects with an error e or the parsing of the body throws e, the stored
upload result is the failure object carrying `e.message`; and in every case
with a file the call completes normally with `uploading` false. -/
theorem handleUpload_failure_paths (rt : Runtime) (res pres : FetchResult) (st : State) :
    (st.file = none →
      handleUpload rt res pres st = (.ok (), st) ∧
      ∀ res2 pres2, handleUpload rt res2 pres2 st = (.ok (), st)) ∧
    (∀ f e, st.file = some f →
      (res = .rejects e ∨ ∃ r, res = .resolves r ∧ r.json = .error e) →
      (handleUpload rt res pres st).2.uploadResult =
        .obj [
          ("status", .str "error"),
          ("message", .str "Failed to upload file"),
          ("validation", .obj [
            ("errors", .arr [.obj [("row", .num 0), ("field", .str "network"),
                                   ("message", .str (e.message rt))]]),
            ("processed_rows", .num 0),
            ("valid_rows", .num 0)])]) ∧
    (∀ f, st.file = some f →
      (handleUpload rt res pres st).1 = .ok () ∧
      (handleUpload rt res pres st).2.uploading = false) := by
  refine ⟨?_, ?_, ?_⟩
  · intro hfile
    have h : ∀ res2 pres2, handleUpload rt res2 pres2 st = (.ok (), st) := by
      intro res2 pres2
      simp [handleUpload, hfile, Eff.ret]
    exact ⟨h res pres, h⟩
  · intro f e hfile hres
    rcases hres with h | ⟨r, h, hjson⟩ <;> subst h <;>
      simp [handleUpload, hfile, Eff.tryFinally, Eff.tryCatch, awaitFetch, Eff.set, Eff.ret,
        Eff.lift, bind, Eff.andThen, uploadFailure, *]
  · intro f hfile
    cases res with
    | rejects e =>
      simp [handleUpload, hfile, Eff.tryFinally, Eff.tryCatch, awaitFetch, Eff.set, Eff.ret,
        Eff.lift, bind, Eff.andThen]
    | resolves r =>
      cases hjson : r.json with
      | error e =>
        simp [handleUpload, hfile, hjson, Eff.tryFinally, Eff.tryCatch, awaitFetch, Eff.set,
          Eff.ret, Eff.lift, bind, Eff.andThen]
      | ok data =>
        cases hstatus : getProp data "status" with
        | error e =>
          simp [handleUpload, hfile, hjson, hstatus, Eff.tryFinally, Eff.tryCatch, awaitFetch,
            Eff.set, Eff.ret, Eff.lift, bind, Eff.andThen]
        | ok status =>
          by_cases hs : status.isStr "success" = true <;>
          by_cases htab : st.activeTab = "payments" <;>
            simp [handleUpload, hfile, hjson, hstatus, hs, htab, Eff.tryFinally, Eff.tryCatch,
              awaitFetch, Eff.set, Eff.ret, Eff.lift, bind, Eff.andThen, Eff.detached,
              fetchPayments]

/-- Witness of `handleUpload_failure_paths`: the upload request is rejected
with the message Failed to fetch. -/
theorem handleUpload_failure_paths_witness :
    (handleUpload exampleRuntime (.rejects (.rejected "Failed to fetch"))
      (okResponse (.arr [])) uploadState).2.uploadResult =
      uploadFailure "Failed to fetch" ∧
    (handleUpload exampleRuntime (.rejects (.rejected "Failed to fetch"))
      (okResponse (.arr [])) uploadState).2.uploading = false :=
  ⟨(handleUpload_failure_paths exampleRuntime (.rejects (.rejected "Failed to fetch"))
      (okResponse (.arr [])) uploadState).2.1 _ (.rejected "Failed to fetch") rfl (Or.inl rfl),
   ((handleUpload_failure_paths exampleRuntime (.rejects (.rejected "Failed to fetch"))
      (okResponse (.arr [])) uploadState).2.2 _ rfl).2⟩

/-! ## Idempotence of the ledger (C15) -/

theorem find_append_self (record : PaymentRecord) (ledger : List PaymentRecord)
    (hfresh : ∀ stored ∈ ledger, stored.id ≠ record.id) :
    (ledger ++ [record]).find? (fun stored => stored.id = record.id) = some record := by
  induction ledger with
  | nil => simp
  | cons a rest ih =>
    have ha : a.id ≠ record.id := hfresh a (List.mem_cons_self _ _)
    simp [List.find?, ha]
    simpa using ih (fun x hx => hfresh x (List.mem_cons_of_mem _ hx))

theorem find_none_of_fresh (record : PaymentRecord) (ledger : List PaymentRecord)
    (hfresh : ∀ stored ∈ ledger, stored.id ≠ record.id) :
    ledger.find? (fun stored => stored.id = record.id) = none := by
  simp only [List.find?_eq_none, decide_eq_true_eq]
  exact hfresh

theorem find_of_mem_unique (original : PaymentRecord) (ledger : List PaymentRecord)
    (hmem : original ∈ ledger) (huniq : (ledger.map (fun stored => stored.id)).Nodup) :
    ledger.find? (fun stored => stored.id = original.id) = some original := by
  induction ledger with
  | nil => cases hmem
  | cons a rest ih =>
    rw [List.map_cons, List.nodup_cons] at huniq
    rcases List.mem_cons.1 hmem with h | h
    · subst h
      simp [List.find?]
    · have hne : a.id ≠ original.id := by
        intro heq
        exact huniq.1 (heq ▸ List.mem_map_of_mem (fun stored => stored.id) h)
      simp only [List.find?, hne, decide_False]
      exact ih h huniq.2

theorem storedUnder_of_mem_unique (original : PaymentRecord) (ledger : List PaymentRecord)
    (hmem : original ∈ ledger) (huniq : (ledger.map (fun stored => stored.id)).Nodup) :
    storedUnder original.id ledger = [original] := by
  induction ledger with
  | nil => cases hmem
  | cons a rest ih =>
    rw [List.map_cons, List.nodup_cons] at huniq
    rcases List.mem_cons.1 hmem with h | h
    · subst h
      have hnone : rest.filter (fun stored => decide (stored.id = original.id)) = [] := by
        simp only [List.filter_eq_nil_iff, decide_eq_true_eq]
        intro x hx heq
        exact huniq.1 (heq ▸ List.mem_map_of_mem (fun stored => stored.id) hx)
      simp [storedUnder, List.filter, hnone]
    · have hne : a.id ≠ original.id := by
        intro heq
        exact huniq.1 (heq ▸ List.mem_map_of_mem (fun stored => stored.id) h)
      have := ih h huniq.2
      simp only [storedUnder] at this ⊢
      simp [List.filter, hne, this]

theorem ledgerAppend_unique (record : PaymentRecord) (ledger : List PaymentRecord)
    (huniq : (ledger.map (fun stored => stored.id)).Nodup) :
    ((ledgerAppend record ledger).2.map (fun stored => stored.id)).Nodup := by
  unfold ledgerAppend
  split
  · next hnone =>
    simp only [List.find?_eq_none, decide_eq_true_eq] at hnone
    simp only [List.map_append, List.map_cons, List.map_nil]
    refine List.Nodup.append huniq (List.nodup_singleton _) ?_
    intro x hx hx2
    rw [List.mem_singleton] at hx2
    obtain ⟨stored, hmem, hid⟩ := List.mem_map.1 hx
    exact hnone stored hmem (hid.trans hx2)
  · split <;> exact huniq

/-- Every ledger reached from the empty one by appends holds each id once. -/
theorem ledgerOf_unique (records : List PaymentRecord) :
    ((ledgerOf records).map (fun stored => stored.id)).Nodup := by
  have h : ∀ (rs : List PaymentRecord) (start : List PaymentRecord),
      (start.map (fun stored => stored.id)).Nodup →
      ((rs.foldl (fun ledger record => (ledgerAppend record ledger).2) start).map
        (fun stored => stored.id)).Nodup := by
    intro rs
    induction rs with
    | nil => intro start hs; exact hs
    | cons r rest ih =>
      intro start hs
      exact ih _ (ledgerAppend_unique r start hs)
  exact h records [] List.nodup_nil

theorem ledgerAppend_stored (record : PaymentRecord) (ledger : List PaymentRecord)
    (huniq : (ledger.map (fun stored => stored.id)).Nodup) (hmem : record ∈ ledger) :
    ledgerAppend record ledger = (.ok, ledger) := by
  simp [ledgerAppend, find_of_mem_unique record ledger hmem huniq]

theorem ledgerAppend_conflict (record original : PaymentRecord) (ledger : List PaymentRecord)
    (huniq : (ledger.map (fun stored => stored.id)).Nodup) (hmem : original ∈ ledger)
    (hid : original.id = record.id) (hne : original ≠ record) :
    ledgerAppend record ledger = (.ConflictError, ledger) := by
  have hfind := find_of_mem_unique original ledger hmem huniq
  rw [hid] at hfind
  simp [ledgerAppend, hfind, hne]

theorem ledgerAppend_ok_mem (record : PaymentRecord) (ledger : List PaymentRecord)
    (hok : (ledgerAppend record ledger).1 = .ok) :
    record ∈ (ledgerAppend record ledger).2 := by
  cases hfind : ledger.find? (fun stored => decide (stored.id = record.id)) with
  | none => simp [ledgerAppend, hfind]
  | some stored =>
    by_cases heq : stored = record
    · have hmem : stored ∈ ledger := List.mem_of_find?_eq_some hfind
      simp only [ledgerAppend, hfind, heq, if_true]
      exact heq ▸ hmem
    · simp [ledgerAppend, hfind, heq] at hok

/-- C15: on every ledger that holds each id once, as every ledger reached by
appends does: a record with a new id is stored; a record that is already
stored, wherever in the ledger, is accepted again and the ledger stays as it
is; whenever an append succeeds, appending the same record once more succeeds,
changes nothing and exactly one record is stored under the id; a record with
the id of a stored record but different field values fails with ConflictError
and leaves the ledger, and the original record in it, unchanged; and no append
removes or rewrites a stored record. -/
theorem ledger_append_idempotent (record : PaymentRecord) (ledger : List PaymentRecord)
    (huniq : (ledger.map (fun stored => stored.id)).Nodup) :
    ((∀ stored ∈ ledger, stored.id ≠ record.id) →
      ledgerAppend record ledger = (.ok, ledger ++ [record])) ∧
    (record ∈ ledger →
      ledgerAppend record ledger = (.ok, ledger) ∧ storedUnder record.id ledger = [record]) ∧
    ((ledgerAppend record ledger).1 = .ok →
      ledgerAppend record (ledgerAppend record ledger).2 = (.ok, (ledgerAppend record ledger).2) ∧
      storedUnder record.id (ledgerAppend record (ledgerAppend record ledger).2).2 = [record]) ∧
    (∀ original ∈ ledger, original.id = record.id → original ≠ record →
      ledgerAppend record ledger = (.ConflictError, ledger) ∧
      storedUnder record.id (ledgerAppend record ledger).2 = [original]) ∧
    ((ledgerAppend record ledger).1 = .ok →
      ∀ other : PaymentRecord, other.id = record.id → other ≠ record →
        ledgerAppend other (ledgerAppend record ledger).2 =
          (.ConflictError, (ledgerAppend record ledger).2) ∧
        storedUnder record.id (ledgerAppend other (ledgerAppend record ledger).2).2 = [record]) ∧
    ((ledgerAppend record ledger).2.map (fun stored => stored.id)).Nodup ∧
    (∃ added, (ledgerAppend record ledger).2 = ledger ++ added) := by
  have huniq2 := ledgerAppend_unique record ledger huniq
  refine ⟨?_, ?_, ?_, ?_, ?_, huniq2, ?_⟩
  · intro hfresh
    simp [ledgerAppend, find_none_of_fresh record ledger hfresh]
  · intro hmem
    exact ⟨ledgerAppend_stored record ledger huniq hmem,
      storedUnder_of_mem_unique record ledger hmem huniq⟩
  · intro hok
    have hmem := ledgerAppend_ok_mem record ledger hok
    have h2 := ledgerAppend_stored record _ huniq2 hmem
    refine ⟨h2, ?_⟩
    rw [h2]
    exact storedUnder_of_mem_unique record _ hmem huniq2
  · intro original hmem hid hne
    have h := ledgerAppend_conflict record original ledger huniq hmem hid hne
    refine ⟨h, ?_⟩
    rw [h, ← hid]
    exact storedUnder_of_mem_unique original ledger hmem huniq
  · intro hok other hid hne
    have hmem := ledgerAppend_ok_mem record ledger hok
    have h := ledgerAppend_conflict other record _ huniq2 hmem hid.symm (Ne.symm hne)
    refine ⟨h, ?_⟩
    rw [h]
    exact storedUnder_of_mem_unique record _ hmem huniq2
  · unfold ledgerAppend
    split
    · exact ⟨[record], rfl⟩
    · split <;> exact ⟨[], (List.append_nil _).symm⟩

/-- Witness of `ledger_append_idempotent`: on the ledger holding the payment
of 2000 and then `secondPayment`, the payment of 2000 is accepted again without
being stored twice, and a payment of 1500 under its id is refused. -/
theorem ledger_append_idempotent_witness :
    (ledgerAppend (paymentOf 2000) [paymentOf 2000, secondPayment] =
        (.ok, [paymentOf 2000, secondPayment]) ∧
      storedUnder "P-1" [paymentOf 2000, secondPayment] = [paymentOf 2000]) ∧
    (ledgerAppend (paymentOf 1500) [paymentOf 2000, secondPayment] =
        (.ConflictError, [paymentOf 2000, secondPayment]) ∧
      storedUnder "P-1" (ledgerAppend (paymentOf 1500) [paymentOf 2000, secondPayment]).2 =
        [paymentOf 2000]) :=
  ⟨(ledger_append_idempotent (paymentOf 2000) [paymentOf 2000, secondPayment]
      (by decide)).2.1 (by simp),
   (ledger_append_idempotent (paymentOf 1500) [paymentOf 2000, secondPayment]
      (by decide)).2.2.2.1 (paymentOf 2000) (by simp) rfl (by decide)⟩

/-! ## The classification of a payment (C16) -/

theorem withinEpsilon_iff (amount due : Int) : withinEpsilon amount due = true ↔ amount = due := by
  simp only [withinEpsilon, decide_eq_true_eq]
  omega

/-- C16: for every payment matched to a schedule entry, `classify` returns
PaymentReceivedEvent when the amount equals the remaining due amount of the
entry, ShortPaymentEvent when it is strictly less and OverPaymentEvent when it
is strictly greater; and it returns MissedPaymentEvent for no payment at all,
matched or not. -/
theorem classify_by_remaining (payment : PaymentRecord) (schedule : List ScheduleEntry)
    (entry : ScheduleEntry) (hmatch : matchEntry payment schedule = some entry) :
    (payment.amount = entry.remaining → classify payment schedule = .PaymentReceivedEvent) ∧
    (payment.amount < entry.remaining → classify payment schedule = .ShortPaymentEvent) ∧
    (payment.amount > entry.remaining → classify payment schedule = .OverPaymentEvent) ∧
    (∀ (p : PaymentRecord) (s : List ScheduleEntry), classify p s ≠ .MissedPaymentEvent) := by
  refine ⟨?_, ?_, ?_, ?_⟩
  · intro h
    simp [classify, hmatch, (withinEpsilon_iff _ _).2 h]
  · intro h
    have hne : withinEpsilon payment.amount entry.remaining = false := by
      rw [Bool.eq_false_iff]
      intro h0
      have := (withinEpsilon_iff _ _).1 h0
      omega
    simp [classify, hmatch, hne, h]
  · intro h
    have hne : withinEpsilon payment.amount entry.remaining = false := by
      rw [Bool.eq_false_iff]
      intro h0
      have := (withinEpsilon_iff _ _).1 h0
      omega
    have hlt : ¬ payment.amount < entry.remaining := by omega
    simp [classify, hmatch, hne, hlt]
  · intro p s
    unfold classify
    split
    · simp
    · split
      · simp
      · split <;> simp

/-- Witness of `classify_by_remaining`: the scenarios of section 8, one entry
of 2000 due on day 1; 2000 is received, 1500 is short, 2500 is over. -/
theorem classify_by_remaining_witness :
    classify (paymentOf 2000) scenarioSchedule = .PaymentReceivedEvent ∧
    classify (paymentOf 1500) scenarioSchedule = .ShortPaymentEvent ∧
    classify (paymentOf 2500) scenarioSchedule = .OverPaymentEvent :=
  ⟨(classify_by_remaining (paymentOf 2000) scenarioSchedule
      { due_date := 1, due_amount := 2000, applied := 0 } (by decide)).1 (by decide),
   (classify_by_remaining (paymentOf 1500) scenarioSchedule
      { due_date := 1, due_amount := 2000, applied := 0 } (by decide)).2.1 (by decide),
   (classify_by_remaining (paymentOf 2500) scenarioSchedule
      { due_date := 1, due_amount := 2000, applied := 0 } (by decide)).2.2.1 (by decide)⟩

/-! ## The two list fetchers keep loaded data on failure (C21) -/

/-- An OK response: `fetchValidationLogs` stores the parsed body. -/
theorem fetchValidationLogs_ok (st : State) (r : Response) (data : JSValue)
    (hok : r.ok = true) (hjson : r.json = .ok data) :
    fetchValidationLogs (.resolves r) st =
      (.ok (), { st with loading := false, validationLogs := data }) := by
  simp [fetchValidationLogs, hok, hjson, Eff.tryFinally, Eff.tryCatch, awaitFetch, Eff.set,
    Eff.ret, Eff.lift, bind, Eff.andThen]

/-- A rejected request, a response that is not OK, or a body that fails to
parse: `fetchPayments` only resets `loading`. -/
theorem fetchPayments_failure (res : FetchResult) (st : State)
    (hfail : (∃ e, res = .rejects e) ∨
      (∃ r, res = .resolves r ∧ (r.ok = false ∨ ∃ e, r.json = .error e))) :
    fetchPayments res st = (.ok (), { st with loading := false }) := by
  rcases hfail with ⟨e, h⟩ | ⟨r, h, hr⟩
  · subst h
    simp [fetchPayments, Eff.tryFinally, Eff.tryCatch, awaitFetch, Eff.set, Eff.ret, Eff.lift,
      bind, Eff.andThen]
  · subst h
    rcases hr with hok | ⟨e, hjson⟩
    · simp [fetchPayments, hok, Eff.tryFinally, Eff.tryCatch, awaitFetch, Eff.set, Eff.ret,
        Eff.lift, bind, Eff.andThen]
    · cases hok : r.ok <;>
        simp [fetchPayments, hok, hjson, Eff.tryFinally, Eff.tryCatch, awaitFetch, Eff.set,
          Eff.ret, Eff.lift, bind, Eff.andThen]

/-- A rejected request, a response that is not OK, or a body that fails to
parse: `fetchValidationLogs` only resets `loading`. -/
theorem fetchValidationLogs_failure (res : FetchResult) (st : State)
    (hfail : (∃ e, res = .rejects e) ∨
      (∃ r, res = .resolves r ∧ (r.ok = false ∨ ∃ e, r.json = .error e))) :
    fetchValidationLogs res st = (.ok (), { st with loading := false }) := by
  rcases hfail with ⟨e, h⟩ | ⟨r, h, hr⟩
  · subst h
    simp [fetchValidationLogs, Eff.tryFinally, Eff.tryCatch, awaitFetch, Eff.set, Eff.ret,
      Eff.lift, bind, Eff.andThen]
  · subst h
    rcases hr with hok | ⟨e, hjson⟩
    · simp [fetchValidationLogs, hok, Eff.tryFinally, Eff.tryCatch, awaitFetch, Eff.set,
        Eff.ret, Eff.lift, bind, Eff.andThen]
    · cases hok : r.ok <;>
        simp [fetchValidationLogs, hok, hjson, Eff.tryFinally, Eff.tryCatch, awaitFetch,
          Eff.set, Eff.ret, Eff.lift, bind, Eff.andThen]

/-- Every way a request settles is a failure or an OK response with a parsed body. -/
theorem fetchResult_cases (res : FetchResult) :
    ((∃ e, res = .rejects e) ∨
      (∃ r, res = .resolves r ∧ (r.ok = false ∨ ∃ e, r.json = .error e))) ∨
    (∃ r data, res = .resolves r ∧ r.ok = true ∧ r.json = .ok data) := by
  cases res with
  | rejects e => exact Or.inl (Or.inl ⟨e, rfl⟩)
  | resolves r =>
    cases hok : r.ok with
    | false => exact Or.inl (Or.inr ⟨r, rfl, Or.inl hok⟩)
    | true =>
      cases hjson : r.json with
      | error e => exact Or.inl (Or.inr ⟨r, rfl, Or.inr ⟨e, hjson⟩⟩)
      | ok data => exact Or.inr ⟨r, data, rfl, hok, hjson⟩

/-- C21: `fetchPayments` and `fetchValidationLogs` always complete normally
with `loading` false; when the request rejects, the response is not OK or the
body fails to parse, `payments` (respectively `validationLogs`) and every other
state variable but `loading` are left unchanged; on an OK response with a
parsed body, `payments` (respectively `validationLogs`) is replaced by exactly
that body and nothing else but `loading` changes. -/
theorem fetchers_keep_data_on_failure (res : FetchResult) (st : State) :
    ((fetchPayments res st).1 = .ok () ∧ (fetchPayments res st).2.loading = false) ∧
    ((fetchValidationLogs res st).1 = .ok () ∧
      (fetchValidationLogs res st).2.loading = false) ∧
    (((∃ e, res = .rejects e) ∨
        (∃ r, res = .resolves r ∧ (r.ok = false ∨ ∃ e, r.json = .error e))) →
      (fetchPayments res st).2.payments = st.payments ∧
      (fetchPayments res st).2 = { st with loading := false } ∧
      (fetchValidationLogs res st).2.validationLogs = st.validationLogs ∧
      (fetchValidationLogs res st).2 = { st with loading := false }) ∧
    (∀ r data, res = .resolves r → r.ok = true → r.json = .ok data →
      (fetchPayments res st).2.payments = data ∧
      (fetchPayments res st).2 = { st with loading := false, payments := data } ∧
      (fetchValidationLogs res st).2.validationLogs = data ∧
      (fetchValidationLogs res st).2 = { st with loading := false, validationLogs := data }) := by
  have hfail : ((∃ e, res = .rejects e) ∨
        (∃ r, res = .resolves r ∧ (r.ok = false ∨ ∃ e, r.json = .error e))) →
      fetchPayments res st = (.ok (), { st with loading := false }) ∧
      fetchValidationLogs res st = (.ok (), { st with loading := false }) :=
    fun h => ⟨fetchPayments_failure res st h, fetchValidationLogs_failure res st h⟩
  have hsucc : ∀ r data, res = .resolves r → r.ok = true → r.json = .ok data →
      fetchPayments res st = (.ok (), { st with loading := false, payments := data }) ∧
      fetchValidationLogs res st =
        (.ok (), { st with loading := false, validationLogs := data }) := by
    intro r data h hok hjson
    subst h
    exact ⟨fetchPayments_ok st r data hok hjson, fetchValidationLogs_ok st r data hok hjson⟩
  refine ⟨?_, ?_, ?_, ?_⟩
  · rcases fetchResult_cases res with h | ⟨r, data, h, hok, hjson⟩
    · rw [(hfail h).1]; exact ⟨rfl, rfl⟩
    · rw [(hsucc r data h hok hjson).1]; exact ⟨rfl, rfl⟩
  · rcases fetchResult_cases res with h | ⟨r, data, h, hok, hjson⟩
    · rw [(hfail h).2]; exact ⟨rfl, rfl⟩
    · rw [(hsucc r data h hok hjson).2]; exact ⟨rfl, rfl⟩
  · intro h
    rw [(hfail h).1, (hfail h).2]
    exact ⟨rfl, rfl, rfl, rfl⟩
  · intro r data h hok hjson
    rw [(hsucc r data h hok hjson).1, (hsucc r data h hok hjson).2]
    exact ⟨rfl, rfl, rfl, rfl⟩

/-- Witness of `fetchers_keep_data_on_failure`: one payment is loaded and the
next request is answered with status 500; the payment stays. -/
theorem fetchers_keep_data_on_failure_witness :
    (fetchPayments
      (.resolves { ok := false, status := 500, statusText := "Internal Server Error",
                   json := .ok (.obj [("detail", .str "database unavailable")]) })
      { State.initial with payments := .arr [shortPaymentRecord] }).2.payments
      = .arr [shortPaymentRecord] ∧
    (fetchPayments
      (.resolves { ok := false, status := 500, statusText := "Internal Server Error",
                   json := .ok (.obj [("detail", .str "database unavailable")]) })
      { State.initial with payments := .arr [shortPaymentRecord] }).2.loading = false :=
  ⟨((fetchers_keep_data_on_failure
      (.resolves { ok := false, status := 500, statusText := "Internal Server Error",
                   json := .ok (.obj [("detail", .str "database unavailable")]) })
      { State.initial with payments := .arr [shortPaymentRecord] }).2.2.1
        (Or.inr ⟨_, rfl, Or.inl rfl⟩)).1,
   (fetchers_keep_data_on_failure
      (.resolves { ok := false, status := 500, statusText := "Internal Server Error",
                   json := .ok (.obj [("detail", .str "database unavailable")]) })
      { State.initial with payments := .arr [shortPaymentRecord] }).1.2⟩

end PaymentDashboard
